import Mathlib

/-!
# Verification of the Smart Multi-Device Access Control system

Shallow embedding of the adaptive risk-and-session-enforcement login
pipeline of the OTT platform repository, together with theorems settling
the specification claims C1..C10.

Embedding conventions:
* JavaScript numbers appearing as integer counters/timestamps are `Nat`
  (timestamps are milliseconds since epoch); score arithmetic that can go
  negative is `Int`; geographic floating-point arithmetic is `ℝ`.
* Redis / MongoDB stores are association lists threaded explicitly.
* External collaborators (bcrypt, geoip, jwt, ua-parser, mail/slack
  delivery, wall clock) are explicit parameters (`Env`, `ActionEnv`).
* Fallible external calls return `Except String`; `try/catch` blocks of
  the source are translated by the corresponding `match` on the result.
-/

namespace OTT

/-! ## SHA-256 (`crypto.createHash("sha256")`, used by
`src/utils/generateDeviceId.js` and `src/utils/enhancedFingerprint.js`)

32-bit words are `Nat` reduced mod `2^32` by `w32`. -/

def w32 (n : Nat) : Nat := n % 4294967296

def rotr (n x : Nat) : Nat := w32 ((x >>> n) ||| (x <<< (32 - n)))

def notw (x : Nat) : Nat := x ^^^ 4294967295

def smallSigma0 (x : Nat) : Nat := rotr 7 x ^^^ rotr 18 x ^^^ (x >>> 3)

def smallSigma1 (x : Nat) : Nat := rotr 17 x ^^^ rotr 19 x ^^^ (x >>> 10)

def bigSigma0 (x : Nat) : Nat := rotr 2 x ^^^ rotr 13 x ^^^ rotr 22 x

def bigSigma1 (x : Nat) : Nat := rotr 6 x ^^^ rotr 11 x ^^^ rotr 25 x

def chf (x y z : Nat) : Nat := (x &&& y) ^^^ (notw x &&& z)

def majf (x y z : Nat) : Nat := (x &&& y) ^^^ (x &&& z) ^^^ (y &&& z)

/-- The 64 SHA-256 round constants (FIPS 180-4, written in decimal). -/
def K256 : List Nat :=
  [1116352408, 1899447441, 3049323471, 3921009573, 961987163, 1508970993,
   2453635748, 2870763221, 3624381080, 310598401, 607225278, 1426881987,
   1925078388, 2162078206, 2614888103, 3248222580, 3835390401, 4022224774,
   264347078, 604807628, 770255983, 1249150122, 1555081692, 1996064986,
   2554220882, 2821834349, 2952996808, 3210313671, 3336571891, 3584528711,
   113926993, 338241895, 666307205, 773529912, 1294757372, 1396182291,
   1695183700, 1986661051, 2177026350, 2456956037, 2730485921, 2820302411,
   3259730800, 3345764771, 3516065817, 3600352804, 4094571909, 275423344,
   430227734, 506948616, 659060556, 883997877, 958139571, 1322822218,
   1537002063, 1747873779, 1955562222, 2024104815, 2227730452, 2361852424,
   2428436474, 2756734187, 3204031479, 3329325298]

/-- SHA-256 initial hash value (FIPS 180-4, written in decimal). -/
def H256 : List Nat :=
  [1779033703, 3144134277, 1013904242, 2773480762,
   1359893119, 2600822924, 528734635, 1541459225]

/-- Big-endian 8-byte encoding of the message bit length. -/
def lenBytes (bits : Nat) : List Nat :=
  [bits >>> 56 % 256, bits >>> 48 % 256, bits >>> 40 % 256, bits >>> 32 % 256,
   bits >>> 24 % 256, bits >>> 16 % 256, bits >>> 8 % 256, bits % 256]

/-- SHA-256 padding: append `0x80`, zero bytes to 56 mod 64, then the
64-bit big-endian bit length. -/
def padMsg (m : List Nat) : List Nat :=
  m ++ [0x80] ++ List.replicate ((120 - ((m.length + 1) % 64)) % 64) 0 ++
    lenBytes (8 * m.length)

/-- Group bytes into big-endian 32-bit words. -/
def bytesToWords : List Nat → List Nat
  | b0 :: b1 :: b2 :: b3 :: rest =>
      (((b0 * 256 + b1) * 256 + b2) * 256 + b3) :: bytesToWords rest
  | _ => []

/-- Extend a 16-word block by `n` further schedule words. -/
def extendW : List Nat → Nat → List Nat
  | ws, 0 => ws
  | ws, n + 1 =>
      let t := ws.length
      extendW (ws ++ [w32 (smallSigma1 (ws.getD (t - 2) 0) + ws.getD (t - 7) 0 +
        smallSigma0 (ws.getD (t - 15) 0) + ws.getD (t - 16) 0)]) n

/-- One SHA-256 compression round on the state `[a,b,c,d,e,f,g,h]`. -/
def compressStep (s : List Nat) (kw : Nat × Nat) : List Nat :=
  let a := s.getD 0 0
  let b := s.getD 1 0
  let c := s.getD 2 0
  let d := s.getD 3 0
  let e := s.getD 4 0
  let f := s.getD 5 0
  let g := s.getD 6 0
  let h := s.getD 7 0
  let t1 := h + bigSigma1 e + chf e f g + kw.1 + kw.2
  let t2 := bigSigma0 a + majf a b c
  [w32 (t1 + t2), a, b, c, w32 (d + t1), e, f, g]

/-- Process one 16-word message block. -/
def processBlock (h : List Nat) (block : List Nat) : List Nat :=
  let ws := extendW block 48
  let s := (K256.zip ws).foldl compressStep h
  (h.zip s).map fun p => w32 (p.1 + p.2)

/-- Split a word list into 16-word chunks (padded input is always a
multiple of 16 words; a ragged tail would be dropped). -/
def chunk16 : List Nat → List (List Nat)
  | w0 :: w1 :: w2 :: w3 :: w4 :: w5 :: w6 :: w7 ::
    w8 :: w9 :: w10 :: w11 :: w12 :: w13 :: w14 :: w15 :: rest =>
      [w0, w1, w2, w3, w4, w5, w6, w7, w8, w9, w10, w11, w12, w13, w14, w15] ::
        chunk16 rest
  | _ => []

/-- The eight 32-bit words of the SHA-256 digest of a byte string. -/
def sha256Words (msg : List Nat) : List Nat :=
  (chunk16 (bytesToWords (padMsg msg))).foldl processBlock H256

def hexDigit (n : Nat) : Char :=
  if n < 10 then Char.ofNat (48 + n) else Char.ofNat (87 + n)

/-- Lowercase 8-hex-digit rendering of a 32-bit word (`digest("hex")`). -/
def wordToHex (n : Nat) : String :=
  String.mk [hexDigit (n >>> 28 % 16), hexDigit (n >>> 24 % 16),
    hexDigit (n >>> 20 % 16), hexDigit (n >>> 16 % 16),
    hexDigit (n >>> 12 % 16), hexDigit (n >>> 8 % 16),
    hexDigit (n >>> 4 % 16), hexDigit (n % 16)]

/-- UTF-8 encoding of one character. -/
def utf8Bytes (c : Char) : List Nat :=
  let n := c.toNat
  if n < 0x80 then [n]
  else if n < 0x800 then [0xC0 ||| (n >>> 6), 0x80 ||| (n &&& 0x3F)]
  else if n < 0x10000 then
    [0xE0 ||| (n >>> 12), 0x80 ||| (n >>> 6 &&& 0x3F), 0x80 ||| (n &&& 0x3F)]
  else
    [0xF0 ||| (n >>> 18), 0x80 ||| (n >>> 12 &&& 0x3F),
     0x80 ||| (n >>> 6 &&& 0x3F), 0x80 ||| (n &&& 0x3F)]

/-- UTF-8 bytes of a string, as naturals (crypto `update` encodes UTF-8). -/
def strBytes (s : String) : List Nat := s.data.flatMap utf8Bytes

/-- `crypto.createHash("sha256").update(s).digest("hex")`. -/
def sha256Hex (s : String) : String :=
  String.join ((sha256Words (strBytes s)).map wordToHex)

/-- `src/utils/generateDeviceId.js`: hash of userAgent concatenated
with the ip. -/
def generateDeviceId (userAgent ip : String) : String :=
  sha256Hex (userAgent ++ ip)

set_option maxRecDepth 10000 in
/-- FIPS 180-4 test vector, validating the SHA-256 embedding. -/
theorem sha256_test_vector_abc :
    sha256Hex "abc" =
      "ba7816bf8f01cfea414140de5dae2223b00361a396177a9cb410ff61f20015ad" := by
  decide

/-! ## Fingerprint generation (`src/utils/enhancedFingerprint.js`)

`ua-parser-js` is an external library: its parse result is a `UAResult`
input. Client-supplied fingerprint values reach the components object
after JS string coercion, so all component values are strings; an absent
(or falsy) input defaults to the empty string as in the source. -/

/-- Parse result of `new UAParser(userAgent).getResult()`; `none` models
a `undefined` field. -/
structure UAResult where
  browserName : Option String
  browserVersion : Option String
  engineName : Option String
  osName : Option String
  osVersion : Option String
  deviceType : Option String
  deviceVendor : Option String
  deviceModel : Option String
  cpuArch : Option String
deriving DecidableEq

/-- Client-supplied fingerprint object from the login request body. -/
structure ClientFingerprint where
  screenResolution : Option String := none
  timezone : Option String := none
  timezoneOffset : Option String := none
  canvas : Option String := none
  webgl : Option String := none
  fonts : Option String := none
  plugins : Option String := none
  audioContext : Option String := none
  platform : Option String := none
  hardwareConcurrency : Option String := none
  deviceMemory : Option String := none
  colorDepth : Option String := none
  pixelRatio : Option String := none
deriving DecidableEq

/-- The relevant parts of the Express request. -/
structure Request where
  userAgent : Option String := none
  xForwardedFor : Option String := none
  remoteAddress : Option String := none
  acceptLanguage : Option String := none
  acceptEncoding : Option String := none
  accept : Option String := none
  email : String := ""
  password : String := ""
  fingerprint : Option ClientFingerprint := none
deriving DecidableEq

/-- The fixed 27-key component mapping assembled by
`generateEnhancedFingerprint`. -/
structure Components where
  userAgent : String
  ip : String
  browser : String
  browserVersion : String
  engine : String
  os : String
  osVersion : String
  deviceType : String
  deviceVendor : String
  deviceModel : String
  cpu : String
  acceptLanguage : String
  acceptEncoding : String
  accept : String
  screenResolution : String
  timezone : String
  timezoneOffset : String
  canvas : String
  webgl : String
  fonts : String
  plugins : String
  audioContext : String
  platform : String
  hardwareConcurrency : String
  deviceMemory : String
  colorDepth : String
  pixelRatio : String
deriving DecidableEq

/-- The components object literal of `generateEnhancedFingerprint`
(`clientFingerprint` defaulted to `{}` upstream is the all-`none`
`ClientFingerprint`). -/
def buildComponents (ua : UAResult) (req : Request) (cf : ClientFingerprint) :
    Components where
  userAgent := req.userAgent.getD ""
  ip := (req.xForwardedFor <|> req.remoteAddress).getD ""
  browser := ua.browserName.getD ""
  browserVersion := ua.browserVersion.getD ""
  engine := ua.engineName.getD ""
  os := ua.osName.getD ""
  osVersion := ua.osVersion.getD ""
  deviceType := ua.deviceType.getD "desktop"
  deviceVendor := ua.deviceVendor.getD ""
  deviceModel := ua.deviceModel.getD ""
  cpu := ua.cpuArch.getD ""
  acceptLanguage := req.acceptLanguage.getD ""
  acceptEncoding := req.acceptEncoding.getD ""
  accept := req.accept.getD ""
  screenResolution := cf.screenResolution.getD ""
  timezone := cf.timezone.getD ""
  timezoneOffset := cf.timezoneOffset.getD ""
  canvas := cf.canvas.getD ""
  webgl := cf.webgl.getD ""
  fonts := cf.fonts.getD ""
  plugins := cf.plugins.getD ""
  audioContext := cf.audioContext.getD ""
  platform := cf.platform.getD ""
  hardwareConcurrency := cf.hardwareConcurrency.getD ""
  deviceMemory := cf.deviceMemory.getD ""
  colorDepth := cf.colorDepth.getD ""
  pixelRatio := cf.pixelRatio.getD ""

/-- The 27 component keys in the order produced by
`Object.entries(components).sort(([a],[b]) => a.localeCompare(b))`:
on this fixed camelCase ASCII key set the locale collation order shown
here coincides with case-insensitive alphabetical order. -/
def componentKeys : List String :=
  ["accept", "acceptEncoding", "acceptLanguage", "audioContext", "browser",
   "browserVersion", "canvas", "colorDepth", "cpu", "deviceMemory",
   "deviceModel", "deviceType", "deviceVendor", "engine", "fonts",
   "hardwareConcurrency", "ip", "os", "osVersion", "pixelRatio", "platform",
   "plugins", "screenResolution", "timezone", "timezoneOffset", "userAgent",
   "webgl"]

/-- The component values, listed in the same (sorted-key) order. -/
def componentValues (c : Components) : List String :=
  [c.accept, c.acceptEncoding, c.acceptLanguage, c.audioContext, c.browser,
   c.browserVersion, c.canvas, c.colorDepth, c.cpu, c.deviceMemory,
   c.deviceModel, c.deviceType, c.deviceVendor, c.engine, c.fonts,
   c.hardwareConcurrency, c.ip, c.os, c.osVersion, c.pixelRatio, c.platform,
   c.plugins, c.screenResolution, c.timezone, c.timezoneOffset, c.userAgent,
   c.webgl]

/-- `Array.prototype.join("|")`. -/
def joinParts : List String → String
  | [] => ""
  | [p] => p
  | p :: rest => p ++ "|" ++ joinParts rest

/-- The canonical sorted `key:value` string that is hashed. -/
def fingerprintString (c : Components) : String :=
  joinParts ((componentKeys.zip (componentValues c)).map
    fun kv => kv.1 ++ ":" ++ kv.2)

/-- The DeviceId produced for a component mapping. -/
def deviceIdOf (c : Components) : String := sha256Hex (fingerprintString c)

/-- Display metadata returned beside the fingerprint; an `undefined`
ua-parser field renders as the string `"undefined"` in the JS template. -/
structure FingerprintMetadata where
  browserInfo : String
  osInfo : String
  deviceInfo : String
deriving DecidableEq

def undefStr (o : Option String) : String := o.getD "undefined"

/-- `generateEnhancedFingerprint(req, fingerprint)` (the `timestamp`
metadata field, a wall-clock read, is not modeled). -/
def generateEnhancedFingerprint (ua : UAResult) (req : Request) :
    String × Components × FingerprintMetadata :=
  let cf := req.fingerprint.getD {}
  let c := buildComponents ua req cf
  (deviceIdOf c, c,
    { browserInfo := undefStr ua.browserName ++ " " ++ undefStr ua.browserVersion
      osInfo := undefStr ua.osName ++ " " ++ undefStr ua.osVersion
      deviceInfo := ua.deviceType.getD "desktop" })

/-! ### Spoofing detection (`detectSpoofing`) -/

/-- Substring test on character lists (`String.prototype.includes`). -/
def listHasSub (sub : List Char) : List Char → Bool
  | [] => sub.isEmpty
  | c :: t => sub.isPrefixOf (c :: t) || listHasSub sub t

def strContains (s sub : String) : Bool := listHasSub sub.data s.data

/-- ASCII-faithful model of `String.prototype.toLowerCase`. -/
def strLower (s : String) : String := String.mk (s.data.map Char.toLower)

structure SpoofCheck where
  isSuspicious : Bool
  riskScore : Nat
  warnings : List String
deriving DecidableEq

/-- The automation-tool tokens scanned for in the user agent. -/
def automationSignals : List String :=
  ["headless", "phantom", "selenium", "webdriver",
   "puppeteer", "playwright", "automation"]

/-- `detectSpoofing(components)`: additive risk, capped at 100 on return;
`isSuspicious` is computed from the uncapped accumulator as in the
source (equivalent to comparing the capped value, since the cap is 100
> 50). -/
def detectSpoofing (c : Components) : SpoofCheck :=
  let uaRisk : Nat := if c.userAgent = "" ∨ c.userAgent.length < 20 then 30 else 0
  let uaWarn : List String :=
    if c.userAgent = "" ∨ c.userAgent.length < 20 then ["Suspicious user agent"] else []
  let uaLower := strLower c.userAgent
  let hits := automationSignals.filter fun sig => strContains uaLower sig
  let autoRisk : Nat := 50 * hits.length
  let autoWarn : List String := hits.map fun sig => "Automation detected: " ++ sig
  let platformLower := strLower c.platform
  let osLower := strLower c.os
  let mismatch : Bool :=
    c.platform ≠ "" && c.os ≠ "" &&
      ((strContains platformLower "win" && !strContains osLower "windows") ||
       (strContains platformLower "mac" && !strContains osLower "mac") ||
       (strContains platformLower "linux" && !strContains osLower "linux"))
  let misRisk : Nat := if mismatch then 25 else 0
  let misWarn : List String := if mismatch then ["Platform-OS mismatch"] else []
  let noClient : Bool := c.canvas = "" && c.webgl = "" && c.fonts = ""
  let clientRisk : Nat := if noClient then 40 else 0
  let clientWarn : List String :=
    if noClient then ["No client-side fingerprint provided"] else []
  let riskScore := uaRisk + autoRisk + misRisk + clientRisk
  { isSuspicious := riskScore > 50
    riskScore := min 100 riskScore
    warnings := uaWarn ++ autoWarn ++ misWarn ++ clientWarn }

/-! ## Geographic impossibility detection (`src/utils/geoDetection.js`)

`geoip-lite` is an external collaborator: its lookup result is an input.
Coordinates live in the store as exact decimals (`ℚ`); the floating-point
haversine arithmetic is modeled over `ℝ`.  The human-readable `reason`
strings that interpolate `toFixed`-formatted numbers are modeled by their
fixed prefix (number formatting is presentational only). -/

/-- Result of `geoip.lookup(ip)` (`ll = [lat, lon]`). -/
structure GeoLoc where
  country : String
  city : String
  lat : ℚ
  lon : ℚ
deriving DecidableEq

/-- The JSON object stored under `user:{id}:last_location`. -/
structure StoredLocation where
  country : String
  city : String
  lat : ℚ
  lon : ℚ
  timestamp : Nat
deriving DecidableEq

noncomputable def toRad (deg : ℝ) : ℝ := deg * (Real.pi / 180)

/-- `Math.atan2(y, x)`. -/
noncomputable def atan2 (y x : ℝ) : ℝ :=
  if 0 < x then Real.arctan (y / x)
  else if x < 0 then
    (if 0 ≤ y then Real.arctan (y / x) + Real.pi
     else Real.arctan (y / x) - Real.pi)
  else
    (if 0 < y then Real.pi / 2 else if y < 0 then -(Real.pi / 2) else 0)

/-- Haversine great-circle distance in km (`calculateDistance`). -/
noncomputable def calculateDistance (lat1 lon1 lat2 lon2 : ℝ) : ℝ :=
  let dLat := toRad (lat2 - lat1)
  let dLon := toRad (lon2 - lon1)
  let a := Real.sin (dLat / 2) * Real.sin (dLat / 2) +
    Real.cos (toRad lat1) * Real.cos (toRad lat2) *
    (Real.sin (dLon / 2) * Real.sin (dLon / 2))
  let c := 2 * atan2 (Real.sqrt a) (Real.sqrt (1 - a))
  6371 * c

/-- `getMinTravelTime`: minimum travel time in milliseconds at 900 km/h. -/
noncomputable def getMinTravelTime (distanceKm : ℝ) : ℝ :=
  distanceKm / 900 * 3600 * 1000

structure GeoResult where
  isImpossible : Bool
  reason : String
  riskScore : Nat
  currentLocation : Option StoredLocation := none
  lastLocation : Option StoredLocation := none
deriving DecidableEq

/-- `checkGeoImpossibility(userId, ipAddress)`, factored over its two
external reads: the geoip lookup result and the stored last location.
Returns the result together with the new value for the last-location key
(`none` = key untouched); the source unconditionally overwrites the key
in every branch that knows the current location. -/
noncomputable def checkGeoImpossibility (lookup : Option GeoLoc)
    (lastData : Option StoredLocation) (now : Nat) :
    GeoResult × Option StoredLocation :=
  match lookup with
  | none =>
      ({ isImpossible := false, reason := "Could not determine location",
         riskScore := 0 }, none)
  | some geo =>
      let current : StoredLocation :=
        { country := geo.country, city := geo.city, lat := geo.lat,
          lon := geo.lon, timestamp := now }
      match lastData with
      | none =>
          ({ isImpossible := false, reason := "First location recorded",
             riskScore := 0, currentLocation := some current }, some current)
      | some last =>
          let distance : ℝ :=
            calculateDistance (last.lat : ℝ) (last.lon : ℝ)
              (current.lat : ℝ) (current.lon : ℝ)
          let timeDiff : ℤ := (now : ℤ) - (last.timestamp : ℤ)
          let minTravelTime : ℝ := getMinTravelTime distance
          let imp : Bool :=
            if (timeDiff : ℝ) < minTravelTime ∧ 500 < distance then true
            else false
          let riskScore : Nat :=
            if imp then 95
            else if 3000 < distance ∧ timeDiff < 3600000 then 75
            else if last.country ≠ current.country then 40
            else if 100 < distance then 20
            else 0
          let reason : String :=
            if imp then "Impossible travel"
            else if 3000 < distance ∧ timeDiff < 3600000 then
              "Suspicious: Long distance travel in short time"
            else if last.country ≠ current.country then
              "Country changed: " ++ last.country ++ " → " ++ current.country
            else if 100 < distance then "Location changed by"
            else ""
          ({ isImpossible := imp, reason := reason, riskScore := riskScore,
             currentLocation := some current, lastLocation := some last },
           some current)

/-! ## Device trust scoring (`DeviceTrustScorer` in
`src/middleware/rateLimiter.js`)

Each sub-score is a pure function of the external reads it performs
(redis counters/sets, the Mongo device record, the wall clock). -/

/-- Mongo `Device` document. -/
structure DeviceRec where
  userId : Nat
  deviceId : String
  userAgent : String := ""
  ipAddress : String := ""
  trusted : Bool := true
  createdAt : Nat := 0
  lastLogin : Nat := 0
deriving DecidableEq

/-- `getLoginFrequencyScore` over the `device:{id}:login_count` value. -/
def getLoginFrequencyScore (count : Nat) : Int :=
  if count ≥ 50 then 20
  else if count ≥ 30 then 15
  else if count ≥ 15 then 10
  else if count ≥ 5 then 5
  else 0

/-- `getDeviceAgeScore`; the source computes a fractional day count and
compares it with integer thresholds, which coincides with flooring
(`Nat` division) against the same thresholds. -/
def getDeviceAgeScore (device : Option DeviceRec) (now : Nat) : Int :=
  match device with
  | none => 0
  | some d =>
      let ageInDays := (now - d.createdAt) / 86400000
      if ageInDays ≥ 180 then 15
      else if ageInDays ≥ 90 then 12
      else if ageInDays ≥ 30 then 8
      else if ageInDays ≥ 7 then 4
      else 0

/-- `getGeoConsistencyScore` over the geoip lookup and the
`device:{id}:countries` set; returns the score and the updated set. -/
def getGeoConsistencyScore (geo : Option GeoLoc) (countries : List String) :
    Int × List String :=
  match geo with
  | none => (0, countries)
  | some g =>
      if countries.length = 0 then (10, countries ++ [g.country])
      else if g.country ∈ countries then
        if countries.length = 1 then (25, countries)
        else if countries.length = 2 then (15, countries)
        else (5, countries)
      else
        (if countries.length > 3 then -10 else 0,
         if g.country ∈ countries then countries else countries ++ [g.country])

/-- `getFailedAttemptsScore` over `device:{id}:failed_attempts`. -/
def getFailedAttemptsScore (failures : Nat) : Int :=
  if failures = 0 then 0
  else if failures ≤ 2 then -5
  else if failures ≤ 5 then -15
  else -30

/-- `getSuspiciousHoursScore` over `new Date().getHours()`. -/
def getSuspiciousHoursScore (hour : Nat) : Int :=
  if 2 ≤ hour ∧ hour ≤ 6 then -10 else 0

/-- `getDeviceSharingScore` over the `device:{id}:users` set. -/
def getDeviceSharingScore (users : List Nat) : Int :=
  if users.length ≤ 1 then 0
  else if users.length = 2 then -10
  else -25

/-- `String.prototype.startsWith`, on character lists. -/
def strStartsWith (s pre : String) : Bool := pre.data.isPrefixOf s.data

/-- `getVPNScore`: private-range prefix check on the IP string. -/
def getVPNScore (ipAddress : String) : Int :=
  if strStartsWith ipAddress "10." ∨ strStartsWith ipAddress "172.16." ∨
      strStartsWith ipAddress "192.168." then -15
  else 0

/-- `getTrustLevel(score)`. -/
def getTrustLevel (score : Int) : String :=
  if score ≥ 80 then "HIGH"
  else if score ≥ 60 then "MEDIUM"
  else if score ≥ 40 then "LOW"
  else "CRITICAL"

structure TrustScore where
  score : Int
  level : String
  factors : List (String × Int)
deriving DecidableEq

/-- `calculateTrustScore`, as a pure function of its seven external
reads.  The source's `Math.round` is the identity here because every
sub-score is an integer.  Returns the result and the updated
`device:{id}:countries` set written by the geo-consistency sub-score. -/
def calculateTrustScore (count : Nat) (device : Option DeviceRec)
    (geo : Option GeoLoc) (countries : List String) (failures : Nat)
    (hour : Nat) (users : List Nat) (ipAddress : String) (now : Nat) :
    TrustScore × List String :=
  let frequencyScore := getLoginFrequencyScore count
  let ageScore := getDeviceAgeScore device now
  let (geoScore, countries') := getGeoConsistencyScore geo countries
  let failedScore := getFailedAttemptsScore failures
  let hoursScore := getSuspiciousHoursScore hour
  let sharingScore := getDeviceSharingScore users
  let vpnScore := getVPNScore ipAddress
  let score : Int := 50 + frequencyScore + ageScore + geoScore + failedScore +
    hoursScore + sharingScore + vpnScore
  let clamped : Int := max 0 (min 100 score)
  ({ score := clamped
     level := getTrustLevel clamped
     factors :=
       [("Login Frequency", frequencyScore), ("Device Age", ageScore),
        ("Geo Consistency", geoScore), ("Failed Attempts", failedScore),
        ("Login Hours", hoursScore), ("Device Sharing", sharingScore),
        ("VPN Usage", vpnScore)] }, countries')

/-! ## Session registry (`sessionHelpers` in `src/config/redis.js`)

The redis keyed store is threaded as an association-list state.  TTLs
are not modeled (no claim depends on expiry); `getUserSessions`'s
self-healing prune of index entries without a backing session is. -/

/-- Association-list get (first binding wins). -/
def alGet {κ α : Type} [DecidableEq κ] : List (κ × α) → κ → Option α
  | [], _ => none
  | (k', v) :: t, k => if k = k' then some v else alGet t k

/-- Association-list set (replace the existing binding, else append). -/
def alSet {κ α : Type} [DecidableEq κ] : List (κ × α) → κ → α → List (κ × α)
  | [], k, v => [(k, v)]
  | (k', v') :: t, k, v =>
      if k = k' then (k, v) :: t else (k', v') :: alSet t k v

/-- Association-list delete. -/
def alDel {κ α : Type} [DecidableEq κ] : List (κ × α) → κ → List (κ × α)
  | [], _ => []
  | (k', v') :: t, k => if k = k' then alDel t k else (k', v') :: alDel t k

/-- Redis `SADD` on a set modeled as a duplicate-free list. -/
def sAdd {α : Type} [DecidableEq α] (l : List α) (a : α) : List α :=
  if a ∈ l then l else l ++ [a]

/-- The session JSON stored under `session:{userId}:{deviceId}`. -/
structure SessionData where
  token : String
  deviceId : String
  userId : Nat
  createdAt : Nat
  lastActivity : Nat
  ipAddress : String := ""
  userAgent : String := ""
  trustScore : Int := 0
  location : Option StoredLocation := none
deriving DecidableEq

/-- The metadata spread into the session by `createSession`. -/
structure SessionMeta where
  ipAddress : String := ""
  userAgent : String := ""
  trustScore : Int := 0
  location : Option StoredLocation := none
deriving DecidableEq

structure LocationHistoryEntry where
  deviceId : String
  country : String
  city : String
  ip : String
  timestamp : Nat
deriving DecidableEq

/-- An alert record built by the rules engine (context snapshot inlined). -/
structure Alert where
  ruleId : String
  ruleName : String
  severity : String
  message : String
  timestamp : Nat
  ctxUserId : Nat
  ctxEmail : String
  ctxDeviceId : String
  ctxIpAddress : String
  ctxLocation : Option StoredLocation
deriving DecidableEq

/-- The redis keyed store. -/
structure RedisState where
  sessions : List ((Nat × String) × SessionData) := []
  userSessions : List (Nat × List String) := []
  lastLocation : List (Nat × StoredLocation) := []
  locationHistory : List (Nat × List LocationHistoryEntry) := []
  loginCount : List (String × Nat) := []
  failedAttempts : List (String × Nat) := []
  deviceCountries : List (String × List String) := []
  deviceUsers : List (String × List Nat) := []
  blockedUsers : List Nat := []
  trustCache : List ((Nat × String) × (Int × List (String × Int))) := []
  alertsStore : List (Nat × Alert) := []
  alertsSorted : List Nat := []
  flaggedUsers : List Nat := []
  userFlags : List (Nat × (String × String × Nat)) := []
deriving DecidableEq

/-- `sessionHelpers.createSession`. -/
def createSession (st : RedisState) (userId : Nat) (deviceId : String)
    (token : String) (meta : SessionMeta) (now : Nat) :
    SessionData × RedisState :=
  let data : SessionData :=
    { token := token, deviceId := deviceId, userId := userId,
      createdAt := now, lastActivity := now, ipAddress := meta.ipAddress,
      userAgent := meta.userAgent, trustScore := meta.trustScore,
      location := meta.location }
  (data,
    { st with
      sessions := alSet st.sessions (userId, deviceId) data
      userSessions := alSet st.userSessions userId
        (sAdd ((alGet st.userSessions userId).getD []) deviceId) })

/-- `sessionHelpers.getSession`. -/
def getSession (st : RedisState) (userId : Nat) (deviceId : String) :
    Option SessionData :=
  alGet st.sessions (userId, deviceId)

/-- Comparator used by the `getUserSessions` sort. -/
def byCreatedAt (a b : SessionData) : Prop := a.createdAt ≤ b.createdAt

instance : DecidableRel byCreatedAt := fun a b => Nat.decLe a.createdAt b.createdAt

instance : IsTotal SessionData byCreatedAt :=
  ⟨fun a b => Nat.le_total a.createdAt b.createdAt⟩

instance : IsTrans SessionData byCreatedAt :=
  ⟨fun _ _ _ h h' => Nat.le_trans h h'⟩

/-- `sessionHelpers.getUserSessions`: read the per-user device-id set,
drop (and prune) ids without a backing session, sort ascending by
`createdAt`. -/
def getUserSessions (st : RedisState) (userId : Nat) :
    List SessionData × RedisState :=
  let deviceIds := (alGet st.userSessions userId).getD []
  let found := deviceIds.filterMap fun d => getSession st userId d
  let live := deviceIds.filter fun d => (getSession st userId d).isSome
  (List.insertionSort byCreatedAt found,
   { st with userSessions := alSet st.userSessions userId live })

/-- `sessionHelpers.deleteSession`. -/
def deleteSession (st : RedisState) (userId : Nat) (deviceId : String) :
    RedisState :=
  { st with
    sessions := alDel st.sessions (userId, deviceId)
    userSessions := alSet st.userSessions userId
      (((alGet st.userSessions userId).getD []).filter (· ≠ deviceId)) }

/-- `sessionHelpers.updateActivity`: refresh `lastActivity` on an
existing session, no-op otherwise. -/
def updateActivity (st : RedisState) (userId : Nat) (deviceId : String)
    (now : Nat) : RedisState :=
  match getSession st userId deviceId with
  | none => st
  | some s =>
      { st with
        sessions := alSet st.sessions (userId, deviceId)
          { s with lastActivity := now } }

/-- `sessionHelpers.validateSession`. -/
def validateSession (st : RedisState) (userId : Nat) (deviceId : String)
    (token : String) : Bool :=
  match getSession st userId deviceId with
  | none => false
  | some s => s.token == token

/-- `blockUser` (`src/middleware/rateLimiter.js`): set
`blocked:{userId}` (duration/TTL not modeled). -/
def blockUser (st : RedisState) (userId : Nat) : RedisState :=
  { st with blockedUsers := sAdd st.blockedUsers userId }

/-- `storeLocationHistory` (`src/utils/geoDetection.js`): push the entry,
keep the most recent 50. -/
def storeLocationHistory (st : RedisState) (userId : Nat)
    (geo : Option GeoLoc) (ipAddress deviceId : String) (now : Nat) :
    RedisState :=
  match geo with
  | none => st
  | some g =>
      let entry : LocationHistoryEntry :=
        { deviceId := deviceId, country := g.country, city := g.city,
          ip := ipAddress, timestamp := now }
      { st with
        locationHistory := alSet st.locationHistory userId
          ((entry :: (alGet st.locationHistory userId).getD []).take 50) }

/-! ## Alert rules engine (`src/utils/alertRulesEngine.js`)

The per-login context assembled by the orchestrator; fields an
individual rule may find `undefined` are `Option`s, and the JS
comparison semantics (`undefined > n` is false, `undefined === true` is
false) is reflected in the conditions.  Rule conditions and message
templates are modeled as `Except`-valued functions so that the
per-rule/per-action `try/catch` structure of the engine is explicit; all
ten table rules are total (`.ok`).  `sendEmailAlert`, `sendSlackAlert`
and the redis persistence are external collaborators supplied through
`ActionEnv`. -/

structure AlertContext where
  userId : Nat
  email : String
  deviceId : String
  ipAddress : String
  geoCheck : Option GeoResult := none
  trustScore : Int := 0
  location : Option StoredLocation := none
  isNewDevice : Bool := false
  deviceUserCount : Option Nat := none
  failedAttempts : Option Nat := none
  isVPN : Option Bool := none
  locationChangeCount : Option Nat := none
  passwordChanged : Option Bool := none
  activeSessions : Option Nat := none
  maxSessions : Option Nat := none
deriving DecidableEq

/-- Ambient values a rule may read besides the context (wall clock). -/
structure RuleEnv where
  now : Nat
  hour : Nat
deriving DecidableEq

structure Rule where
  id : String
  name : String
  condition : RuleEnv → AlertContext → Except String Bool
  severity : String
  actions : List String
  message : RuleEnv → AlertContext → Except String String

/-- External collaborators reached from rule actions and persistence. -/
structure ActionEnv where
  email : Alert → Except String Unit
  slack : Alert → Except String Unit
  store : Alert → Except String Unit

/-- Observable engine effects, tagged by the rule that caused them. -/
inductive EngineEvent
  | emailSent (ruleId : String)
  | slackSent (ruleId : String)
  | sessionBlocked (ruleId : String) (userId : Nat) (deviceId : String)
  | tempBlocked (ruleId : String) (userId : Nat)
  | flagged (ruleId : String) (userId : Nat)
  | logged (ruleId : String) (message : String)
  | unknownAction (ruleId : String) (action : String)
  | actionFailed (ruleId : String) (action : String) (err : String)
  | ruleFailed (ruleId : String) (err : String)
deriving DecidableEq

def renderNat (o : Option Nat) : String :=
  match o with
  | none => "undefined"
  | some n => toString n

/-- Rule table entry 1. -/
def geoImpossibilityRule : Rule :=
  { id := "geo_impossibility"
    name := "Geographic Impossibility Detected"
    condition := fun _ ctx =>
      .ok ((ctx.geoCheck.map (·.isImpossible)).getD false)
    severity := "CRITICAL"
    actions := ["email", "slack", "block_session"]
    message := fun _ ctx =>
      .ok ("User " ++ ctx.email ++ " attempted login from impossible location: "
        ++ ((ctx.geoCheck.map (·.reason)).getD "undefined")) }

/-- Rule table entry 2. -/
def trustScoreCriticalRule : Rule :=
  { id := "trust_score_critical"
    name := "Critical Trust Score"
    condition := fun _ ctx => .ok (ctx.trustScore < 40)
    severity := "HIGH"
    actions := ["email", "slack"]
    message := fun _ ctx =>
      .ok ("User " ++ ctx.email ++ " has critical trust score: "
        ++ toString ctx.trustScore ++ "/100") }

/-- Rule table entry 3. -/
def deviceSharingRule : Rule :=
  { id := "device_sharing"
    name := "Device Sharing Detected"
    condition := fun _ ctx =>
      .ok (match ctx.deviceUserCount with | some n => n > 2 | none => false)
    severity := "MEDIUM"
    actions := ["email", "flag"]
    message := fun _ ctx =>
      .ok ("Device " ++ ctx.deviceId.take 8 ++ " is being used by "
        ++ renderNat ctx.deviceUserCount ++ " accounts") }

/-- Rule table entry 4. -/
def multipleFailedLoginsRule : Rule :=
  { id := "multiple_failed_logins"
    name := "Multiple Failed Login Attempts"
    condition := fun _ ctx =>
      .ok (match ctx.failedAttempts with | some n => n ≥ 5 | none => false)
    severity := "HIGH"
    actions := ["email", "temporary_block"]
    message := fun _ ctx =>
      .ok ("User " ++ ctx.email ++ " has " ++ renderNat ctx.failedAttempts
        ++ " failed login attempts") }

/-- Rule table entry 5. -/
def sessionLimitExceededRule : Rule :=
  { id := "session_limit_exceeded"
    name := "Session Limit Exceeded"
    condition := fun _ ctx =>
      .ok (match ctx.activeSessions, ctx.maxSessions with
           | some a, some m => a > m
           | _, _ => false)
    severity := "MEDIUM"
    actions := ["email"]
    message := fun _ ctx =>
      .ok ("User " ++ ctx.email ++ " exceeded session limit: "
        ++ renderNat ctx.activeSessions ++ "/" ++ renderNat ctx.maxSessions) }

/-- Rule table entry 6. -/
def unusualLoginHoursRule : Rule :=
  { id := "unusual_login_hours"
    name := "Login During Unusual Hours"
    condition := fun env _ => .ok (2 ≤ env.hour ∧ env.hour ≤ 5)
    severity := "LOW"
    actions := ["log"]
    message := fun env ctx =>
      .ok ("User " ++ ctx.email ++ " logged in at unusual hour: "
        ++ toString env.hour) }

/-- Rule table entry 7. -/
def vpnDetectedRule : Rule :=
  { id := "vpn_detected"
    name := "VPN/Proxy Usage Detected"
    condition := fun _ ctx => .ok (ctx.isVPN = some true)
    severity := "MEDIUM"
    actions := ["email", "flag"]
    message := fun _ ctx =>
      .ok ("User " ++ ctx.email ++ " is using VPN/Proxy from "
        ++ ((ctx.location.map (·.country)).getD "undefined")) }

/-- Rule table entry 8. -/
def rapidLocationChangesRule : Rule :=
  { id := "rapid_location_changes"
    name := "Rapid Location Changes"
    condition := fun _ ctx =>
      .ok (match ctx.locationChangeCount with | some n => n > 3 | none => false)
    severity := "HIGH"
    actions := ["email", "slack", "flag"]
    message := fun _ ctx =>
      .ok ("User " ++ ctx.email ++ " changed locations "
        ++ renderNat ctx.locationChangeCount ++ " times in 24h") }

/-- Rule table entry 9. -/
def newDeviceHighRiskRule : Rule :=
  { id := "new_device_high_risk"
    name := "New Device from High-Risk Location"
    condition := fun _ ctx => .ok (ctx.isNewDevice ∧ ctx.trustScore < 50)
    severity := "MEDIUM"
    actions := ["email"]
    message := fun _ ctx =>
      .ok ("New device detected for " ++ ctx.email
        ++ " with low trust score: " ++ toString ctx.trustScore ++ "/100") }

/-- Rule table entry 10. -/
def accountTakeoverRule : Rule :=
  { id := "account_takeover_attempt"
    name := "Potential Account Takeover"
    condition := fun _ ctx =>
      .ok (ctx.passwordChanged = some true ∧ ctx.trustScore < 60)
    severity := "CRITICAL"
    actions := ["email", "slack", "temporary_block"]
    message := fun _ ctx =>
      .ok ("Potential account takeover for " ++ ctx.email
        ++ " - password changed with low trust score") }

/-- The fixed rule table (`this.rules`), in source order. -/
def theRules : List Rule :=
  [geoImpossibilityRule, trustScoreCriticalRule, deviceSharingRule,
   multipleFailedLoginsRule, sessionLimitExceededRule, unusualLoginHoursRule,
   vpnDetectedRule, rapidLocationChangesRule, newDeviceHighRiskRule,
   accountTakeoverRule]

/-- `flagUser(userId, alert)`. -/
def flagUser (st : RedisState) (userId : Nat) (alert : Alert) : RedisState :=
  { st with
    userFlags := alSet st.userFlags userId
      (alert.message, alert.severity, alert.timestamp)
    flaggedUsers := sAdd st.flaggedUsers userId }

/-- One case of the `switch` in `executeActions`, wrapped in its own
`try/catch`: a throwing action (a failing external dispatch) yields an
`actionFailed` event and leaves the state untouched by that action. -/
def execOneAction (aenv : ActionEnv) (ruleId : String) (alert : Alert)
    (ctx : AlertContext) (st : RedisState) (action : String) :
    RedisState × List EngineEvent :=
  if action = "email" then
    match aenv.email alert with
    | .ok _ => (st, [.emailSent ruleId])
    | .error e => (st, [.actionFailed ruleId action e])
  else if action = "slack" then
    match aenv.slack alert with
    | .ok _ => (st, [.slackSent ruleId])
    | .error e => (st, [.actionFailed ruleId action e])
  else if action = "block_session" then
    (deleteSession st ctx.userId ctx.deviceId,
     [.sessionBlocked ruleId ctx.userId ctx.deviceId])
  else if action = "temporary_block" then
    (blockUser st ctx.userId, [.tempBlocked ruleId ctx.userId])
  else if action = "flag" then
    (flagUser st ctx.userId alert, [.flagged ruleId ctx.userId])
  else if action = "log" then
    (st, [.logged ruleId alert.message])
  else
    (st, [.unknownAction ruleId action])

/-- `executeActions(actions, alert, context)`: each action in order,
failures caught per action. -/
def executeActions (aenv : ActionEnv) (ruleId : String) (alert : Alert)
    (ctx : AlertContext) (st : RedisState) (actions : List String) :
    RedisState × List EngineEvent :=
  match actions with
  | [] => (st, [])
  | a :: rest =>
      let (st1, e1) := execOneAction aenv ruleId alert ctx st a
      let (st2, e2) := executeActions aenv ruleId alert ctx st1 rest
      (st2, e1 ++ e2)

/-- `storeAlert(alert)`: 7-day keyed record plus the recency index capped
at the 1000 most recent entries. -/
def storeAlert (st : RedisState) (alert : Alert) (now : Nat) : RedisState :=
  { st with
    alertsStore := alSet st.alertsStore now alert
    alertsSorted := (now :: st.alertsSorted).take 1000 }

/-- The body of the per-rule loop of `evaluateRules`, with the rule-level
`try/catch`: a rule whose condition or message rendering throws, or
whose persistence fails, contributes a `ruleFailed` event and no
triggered alert, and evaluation moves on.  Actions run before
persistence, as in the source. -/
def processRule (renv : RuleEnv) (aenv : ActionEnv) (ctx : AlertContext)
    (st : RedisState) (rule : Rule) :
    Option Alert × RedisState × List EngineEvent :=
  match rule.condition renv ctx with
  | .error e => (none, st, [.ruleFailed rule.id e])
  | .ok false => (none, st, [])
  | .ok true =>
      match rule.message renv ctx with
      | .error e => (none, st, [.ruleFailed rule.id e])
      | .ok msg =>
          let alert : Alert :=
            { ruleId := rule.id, ruleName := rule.name,
              severity := rule.severity, message := msg,
              timestamp := renv.now, ctxUserId := ctx.userId,
              ctxEmail := ctx.email, ctxDeviceId := ctx.deviceId,
              ctxIpAddress := ctx.ipAddress, ctxLocation := ctx.location }
          let (st1, evs) := executeActions aenv rule.id alert ctx st rule.actions
          match aenv.store alert with
          | .error e => (none, st1, evs ++ [.ruleFailed rule.id e])
          | .ok _ => (some alert, storeAlert st1 alert renv.now, evs)

/-- `evaluateRules(context)`: all rules in table order, returning the
triggered alerts, the final state and the event trace. -/
def evaluateRules (renv : RuleEnv) (aenv : ActionEnv) (ctx : AlertContext)
    (st : RedisState) (rules : List Rule) :
    List Alert × RedisState × List EngineEvent :=
  match rules with
  | [] => ([], st, [])
  | r :: rest =>
      let (a1, st1, e1) := processRule renv aenv ctx st r
      let (as2, st2, e2) := evaluateRules renv aenv ctx st1 rest
      (a1.toList ++ as2, st2, e1 ++ e2)

/-! ## The enhanced login handler (`exports.login` in the enhanced auth
controller, `src/unnamed/part_001`)

External collaborators (bcrypt, ua-parser, geoip, jwt, OTP generation,
the wall clock, mail/slack delivery) are supplied through `Env`.  The
MongoDB collections and the redis store are threaded as state. -/

/-- Mongo `User` document (`plan` is schema-restricted to
BASIC/STANDARD/PREMIUM with default BASIC). -/
structure UserRec where
  id : Nat
  email : String
  passwordHash : String
  plan : String := "BASIC"
  otp : Option String := none
  otpExpiry : Option Nat := none
deriving DecidableEq

/-- Mongo `Session` document. -/
structure MongoSession where
  userId : Nat
  deviceId : String
  token : String
  isActive : Bool := true
  createdAt : Nat
deriving DecidableEq

structure MongoState where
  users : List UserRec := []
  devices : List DeviceRec := []
  sessions : List MongoSession := []
deriving DecidableEq

/-- Combined store state threaded through a login request. -/
structure St where
  redis : RedisState := {}
  mongo : MongoState := {}
deriving DecidableEq

/-- External collaborators of the login pipeline. -/
structure Env where
  bcryptCompare : String → String → Bool
  uaParse : Option String → UAResult
  geoLookup : String → Option GeoLoc
  jwtSign : Nat → String → String → String
  otp : String
  now : Nat
  hour : Nat
  aenv : ActionEnv

inductive LoginEvent
  | engineEv (e : EngineEvent)
  | otpEmailSent (email : String) (otp : String)
deriving DecidableEq

/-- The JSON responses of the login endpoint. -/
inductive LoginResponse
  | badRequest (error : String)
  | forbidden (error message : String) (warnings : List String)
  | otpChallenge (message : String) (reason : Option String)
      (securityAlert : Bool) (trustScore : Option Int)
      (trustLevel : Option String)
  | success (token message deviceId : String) (score : Int) (level : String)
      (activeSessions maxSessions : Nat) (metadata : FingerprintMetadata)
  | serverError (error details : String)
deriving DecidableEq

def findUserByEmail (m : MongoState) (email : String) : Option UserRec :=
  m.users.find? fun u => u.email == email

def findDevice (m : MongoState) (userId : Nat) (deviceId : String) :
    Option DeviceRec :=
  m.devices.find? fun d => d.userId == userId && d.deviceId == deviceId

/-- `deviceTrustScorer.calculateTrustScore` wired to its store reads and
writes (login counter, device record, geoip, country set, failed
attempts, wall-clock hour, device-user set, 24h score cache). -/
def trustScoreStep (env : Env) (st : St) (userId : Nat)
    (deviceId ipAddress : String) : TrustScore × St :=
  let count := (alGet st.redis.loginCount deviceId).getD 0
  let device := findDevice st.mongo userId deviceId
  let geo := env.geoLookup ipAddress
  let countries := (alGet st.redis.deviceCountries deviceId).getD []
  let failures := (alGet st.redis.failedAttempts deviceId).getD 0
  let users := (alGet st.redis.deviceUsers deviceId).getD []
  let (ts, countries') := calculateTrustScore count device geo countries
    failures env.hour users ipAddress env.now
  (ts,
   { st with redis :=
      { st.redis with
        deviceCountries := alSet st.redis.deviceCountries deviceId countries'
        trustCache := alSet st.redis.trustCache (userId, deviceId)
          (ts.score, ts.factors) } })

/-- `getMaxSessions` of the enhanced controller (`src/unnamed/part_001`
lines 17–22): unknown plans fall through to 1. -/
def getMaxSessions (plan : String) : Nat :=
  if plan = "BASIC" then 1
  else if plan = "STANDARD" then 2
  else if plan = "PREMIUM" then 4
  else 1

/-- `getMaxSessions` of the legacy controller (`src/unnamed/part_000`
lines 1–5): no fall-through, an unknown plan yields `undefined`. -/
def getMaxSessionsLegacy (plan : String) : Option Nat :=
  if plan = "BASIC" then some 1
  else if plan = "STANDARD" then some 2
  else if plan = "PREMIUM" then some 4
  else none

/-- `Session.updateOne({userId, deviceId}, {isActive:false})`: flips the
first matching document. -/
def markInactive : List MongoSession → Nat → String → List MongoSession
  | [], _, _ => []
  | s :: t, u, d =>
      if s.userId = u ∧ s.deviceId = d then { s with isActive := false } :: t
      else s :: markInactive t u d

def setUserOtp (m : MongoState) (userId : Nat) (otp : String)
    (expiry : Nat) : MongoState :=
  { m with users := m.users.map fun u =>
      if u.id = userId then { u with otp := some otp, otpExpiry := some expiry }
      else u }

/-- Steps 9–12 of the enhanced login (lines 179–217): read the active
list, enforce the plan limit by evicting the head (oldest) of the
ascending-by-`createdAt` list, then create the redis session and the
Mongo analytics copy.  Returns the new stores together with the
`activeSessions` (pre-creation count + 1) and `maxSessions` numbers the
success response reports.  In the shipped handler this code is
unreachable (see `login` below); it is the §4.4 enforcement policy. -/
def sessionEnforcementAndCreate (redis : RedisState)
    (mongoSessions : List MongoSession) (userId : Nat) (plan : String)
    (deviceId token : String) (meta : SessionMeta) (now : Nat) :
    RedisState × List MongoSession × Nat × Nat :=
  let step := getUserSessions redis userId
  let active := step.1
  let redis1 := step.2
  let maxSessions := getMaxSessions plan
  let evict : RedisState × List MongoSession :=
    if active.length ≥ maxSessions then
      match active.head? with
      | some oldest =>
          (deleteSession redis1 userId oldest.deviceId,
           markInactive mongoSessions userId oldest.deviceId)
      | none => (redis1, mongoSessions)
    else (redis1, mongoSessions)
  let redis3 := (createSession evict.1 userId deviceId token meta now).2
  (redis3,
   evict.2 ++ [{ userId := userId, deviceId := deviceId, token := token,
                 isActive := true, createdAt := now }],
   active.length + 1, maxSessions)

/-- `exports.login` of the enhanced controller, translated line by line.

The source declares `let device = await Device.findOne(...)` at line 132
but already reads `device` at line 124 (`alertContext.isNewDevice =
!device`).  A `let` binding is in its temporal dead zone before its
declaration, so that read throws `ReferenceError: Cannot access 'device'
before initialization`; the handler's `catch` converts it into the 500
"Login failed" response.  Everything from line 124 on is therefore dead
code on the non-impossible path, and the model returns the 500 response
at exactly that point. -/
noncomputable def login (env : Env) (st : St) (req : Request) :
    LoginResponse × St × List LoginEvent :=
  match findUserByEmail st.mongo req.email with
  | none => (.badRequest "Invalid credentials", st, [])
  | some user =>
    if ¬ env.bcryptCompare req.password user.passwordHash then
      (.badRequest "Invalid credentials", st, [])
    else
      let fp := generateEnhancedFingerprint (env.uaParse req.userAgent) req
      let deviceId := fp.1
      let components := fp.2.1
      let spoofingCheck := detectSpoofing components
      if spoofingCheck.isSuspicious ∧ spoofingCheck.riskScore > 70 then
        (.forbidden "Suspicious activity detected"
            "Your login attempt has been flagged for security review."
            spoofingCheck.warnings,
         { st with redis := blockUser st.redis user.id }, [])
      else
        let ipAddress := (req.xForwardedFor <|> req.remoteAddress).getD ""
        let geoStep := checkGeoImpossibility (env.geoLookup ipAddress)
          (alGet st.redis.lastLocation user.id) env.now
        let geoCheck := geoStep.1
        let redisG :=
          match geoStep.2 with
          | none => st.redis
          | some loc =>
              { st.redis with
                lastLocation := alSet st.redis.lastLocation user.id loc }
        let alertContext : AlertContext :=
          { userId := user.id, email := user.email, deviceId := deviceId,
            ipAddress := ipAddress, geoCheck := some geoCheck,
            trustScore := 50, location := geoCheck.currentLocation,
            isNewDevice := false }
        if geoCheck.isImpossible then
          let engine := evaluateRules { now := env.now, hour := env.hour }
            env.aenv alertContext redisG theRules
          let mongoO := setUserOtp st.mongo user.id env.otp (env.now + 5 * 60 * 1000)
          (.otpChallenge "Unusual location detected. OTP sent to email."
              (some geoCheck.reason) true none none,
           { redis := engine.2.1, mongo := mongoO },
           engine.2.2.map .engineEv ++ [.otpEmailSent user.email env.otp])
        else
          let tsStep := trustScoreStep env { redis := redisG, mongo := st.mongo }
            user.id deviceId ipAddress
          -- line 124: `alertContext.isNewDevice = !device` reads the
          -- temporal-dead-zone `device` binding and throws; the catch at
          -- lines 236-239 produces the 500 response.
          (.serverError "Login failed"
              "Cannot access 'device' before initialization",
           tsStep.2, [])

/-! ## Shared lemmas about the store primitives -/

theorem alGet_alSet_self {κ α : Type} [DecidableEq κ]
    (l : List (κ × α)) (k : κ) (v : α) : alGet (alSet l k v) k = some v := by
  induction l with
  | nil => simp [alSet, alGet]
  | cons p t ih =>
      by_cases h : k = p.1
      · simp [alSet, alGet, h]
      · simpa [alSet, alGet, h] using ih

theorem alGet_alSet_ne {κ α : Type} [DecidableEq κ]
    (l : List (κ × α)) (k k' : κ) (v : α) (h : k' ≠ k) :
    alGet (alSet l k v) k' = alGet l k' := by
  induction l with
  | nil => simp [alSet, alGet, h]
  | cons p t ih =>
      by_cases hk : k = p.1
      · subst hk
        simp [alSet, alGet, h]
      · by_cases hk' : k' = p.1
        · simp [alSet, alGet, hk, hk']
        · simpa [alSet, alGet, hk, hk'] using ih

theorem alGet_alDel_self {κ α : Type} [DecidableEq κ]
    (l : List (κ × α)) (k : κ) : alGet (alDel l k) k = none := by
  induction l with
  | nil => simp [alDel, alGet]
  | cons p t ih =>
      by_cases h : k = p.1
      · simpa [alDel, h] using ih
      · simpa [alDel, alGet, h] using ih

/-! ## C10 — `updateActivity` frame conditions -/

/-- C10: for an existing session `updateActivity` rewrites exactly the
`lastActivity` field to the supplied clock value (so consecutive calls
at increasing clock values leave an increasing `lastActivity`), while the
record update keeps `createdAt` and `token` untouched; for a key with no
stored session the call leaves the whole store unchanged. -/
theorem c10_touch_activity (st : RedisState) (u : Nat) (d : String) :
    (∀ now s, getSession st u d = some s →
      getSession (updateActivity st u d now) u d =
        some { s with lastActivity := now } ∧
      (updateActivity st u d now).sessions =
        alSet st.sessions (u, d) { s with lastActivity := now }) ∧
    (∀ now, getSession st u d = none → updateActivity st u d now = st) ∧
    (∀ t1 t2 s, getSession st u d = some s →
      getSession (updateActivity (updateActivity st u d t1) u d t2) u d =
        some { s with lastActivity := t2 }) := by
  refine ⟨fun now s h => ?_, fun now h => ?_, fun t1 t2 s h => ?_⟩
  · simp only [updateActivity, getSession] at h ⊢
    simp only [h]
    exact ⟨alGet_alSet_self _ _ _, trivial⟩
  · simp only [updateActivity, getSession] at h ⊢
    simp [h]
  · have h1 : alGet (alSet st.sessions (u, d) { s with lastActivity := t1 })
        (u, d) = some { s with lastActivity := t1 } := alGet_alSet_self _ _ _
    simp only [updateActivity, getSession] at h ⊢
    simp only [h, h1]
    exact alGet_alSet_self _ _ _

def c10Sess : SessionData :=
  { token := "tok", deviceId := "d", userId := 1, createdAt := 5,
    lastActivity := 5 }

def c10State : RedisState := { sessions := [((1, "d"), c10Sess)] }

/-- C10 witness: concrete store with one session. -/
theorem c10_witness :
    getSession c10State 1 "d" = some c10Sess ∧
    getSession (updateActivity c10State 1 "d" 9) 1 "d" =
      some { c10Sess with lastActivity := 9 } :=
  ⟨by decide, ((c10_touch_activity c10State 1 "d").1 9 c10Sess (by decide)).1⟩

/-! ## C5 — trust score clamping and level mapping -/

theorem getTrustLevel_spec (s : Int) :
    ((getTrustLevel s = "HIGH") ↔ 80 ≤ s) ∧
    ((getTrustLevel s = "MEDIUM") ↔ 60 ≤ s ∧ s < 80) ∧
    ((getTrustLevel s = "LOW") ↔ 40 ≤ s ∧ s < 60) ∧
    ((getTrustLevel s = "CRITICAL") ↔ s < 40) := by
  unfold getTrustLevel
  split_ifs with h1 h2 h3
  · exact ⟨⟨fun _ => h1, fun _ => rfl⟩,
      ⟨fun h => absurd h (by decide), fun h => absurd h1 (by omega)⟩,
      ⟨fun h => absurd h (by decide), fun h => absurd h1 (by omega)⟩,
      ⟨fun h => absurd h (by decide), fun h => absurd h1 (by omega)⟩⟩
  · exact ⟨⟨fun h => absurd h (by decide), fun h => absurd h h1⟩,
      ⟨fun _ => ⟨h2, by omega⟩, fun _ => rfl⟩,
      ⟨fun h => absurd h (by decide), fun h => absurd h2 (by omega)⟩,
      ⟨fun h => absurd h (by decide), fun h => absurd h2 (by omega)⟩⟩
  · exact ⟨⟨fun h => absurd h (by decide), fun h => absurd h h1⟩,
      ⟨fun h => absurd h (by decide), fun h => absurd h.1 h2⟩,
      ⟨fun _ => ⟨h3, by omega⟩, fun _ => rfl⟩,
      ⟨fun h => absurd h (by decide), fun h => absurd h3 (by omega)⟩⟩
  · exact ⟨⟨fun h => absurd h (by decide), fun h => absurd h h1⟩,
      ⟨fun h => absurd h (by decide), fun h => absurd h.1 h2⟩,
      ⟨fun h => absurd h (by decide), fun h => absurd h.1 h3⟩,
      ⟨fun _ => by omega, fun _ => rfl⟩⟩

/-- C5: for every input combination, `calculateTrustScore` returns a
score clamped to [0, 100] (base 50 plus the seven sub-scores), and the
level is HIGH / MEDIUM / LOW / CRITICAL exactly on the score bands
≥80 / [60,80) / [40,60) / <40. -/
theorem c5_trust_score_clamped_levels (count : Nat) (device : Option DeviceRec)
    (geo : Option GeoLoc) (countries : List String) (failures : Nat)
    (hour : Nat) (users : List Nat) (ip : String) (now : Nat) :
    0 ≤ (calculateTrustScore count device geo countries failures hour users
          ip now).1.score ∧
    (calculateTrustScore count device geo countries failures hour users
          ip now).1.score ≤ 100 ∧
    (((calculateTrustScore count device geo countries failures hour users
          ip now).1.level = "HIGH") ↔
      80 ≤ (calculateTrustScore count device geo countries failures hour users
          ip now).1.score) ∧
    (((calculateTrustScore count device geo countries failures hour users
          ip now).1.level = "MEDIUM") ↔
      60 ≤ (calculateTrustScore count device geo countries failures hour users
          ip now).1.score ∧
      (calculateTrustScore count device geo countries failures hour users
          ip now).1.score < 80) ∧
    (((calculateTrustScore count device geo countries failures hour users
          ip now).1.level = "LOW") ↔
      40 ≤ (calculateTrustScore count device geo countries failures hour users
          ip now).1.score ∧
      (calculateTrustScore count device geo countries failures hour users
          ip now).1.score < 60) ∧
    (((calculateTrustScore count device geo countries failures hour users
          ip now).1.level = "CRITICAL") ↔
      (calculateTrustScore count device geo countries failures hour users
          ip now).1.score < 40) := by
  have hs : (calculateTrustScore count device geo countries failures hour users
      ip now).1.score =
      max 0 (min 100 (50 + getLoginFrequencyScore count +
        getDeviceAgeScore device now +
        (getGeoConsistencyScore geo countries).1 +
        getFailedAttemptsScore failures + getSuspiciousHoursScore hour +
        getDeviceSharingScore users + getVPNScore ip)) := rfl
  have hl : (calculateTrustScore count device geo countries failures hour users
      ip now).1.level =
      getTrustLevel ((calculateTrustScore count device geo countries failures
        hour users ip now).1.score) := rfl
  refine ⟨?_, ?_, ?_, ?_, ?_, ?_⟩
  · rw [hs]; exact le_max_left 0 _
  · rw [hs]
    exact max_le (by norm_num) (min_le_left _ _)
  · rw [hl]; exact (getTrustLevel_spec _).1
  · rw [hl]; exact (getTrustLevel_spec _).2.1
  · rw [hl]; exact (getTrustLevel_spec _).2.2.1
  · rw [hl]; exact (getTrustLevel_spec _).2.2.2

/-! ## C4 — plan limits and FIFO eviction -/

def c4r1 : RedisState :=
  (sessionEnforcementAndCreate {} [] 7 "BASIC" "dev1" "tok1" {} 100).1

def c4r2 : RedisState :=
  (sessionEnforcementAndCreate c4r1 [] 7 "BASIC" "dev2" "tok2" {} 200).1

/-- C4: the plan-derived maximum is BASIC→1, STANDARD→2, PREMIUM→4 with
unknown plans defaulting to 1; when the active count reaches the
maximum, the evicted session (the head of the ascending-by-`createdAt`
active list) has minimal `createdAt` among the active sessions and its
key is absent afterwards; and in the concrete BASIC scenario a second
login evicts the first session while the second remains. -/
theorem c4_session_limit_fifo :
    (getMaxSessions "BASIC" = 1 ∧ getMaxSessions "STANDARD" = 2 ∧
     getMaxSessions "PREMIUM" = 4 ∧
     ∀ p, p ≠ "BASIC" → p ≠ "STANDARD" → p ≠ "PREMIUM" →
       getMaxSessions p = 1) ∧
    (∀ redis ms u plan d token meta now oldest,
      (getUserSessions redis u).1.length ≥ getMaxSessions plan →
      (getUserSessions redis u).1.head? = some oldest →
      (∀ s ∈ (getUserSessions redis u).1, oldest.createdAt ≤ s.createdAt) ∧
      (oldest.deviceId ≠ d →
        getSession
          (sessionEnforcementAndCreate redis ms u plan d token meta now).1
          u oldest.deviceId = none)) ∧
    (getSession c4r1 7 "dev1" ≠ none ∧
     getSession c4r2 7 "dev1" = none ∧
     getSession c4r2 7 "dev2" ≠ none) := by
  refine ⟨⟨rfl, rfl, rfl, ?_⟩, ?_, by decide, by decide, by decide⟩
  · intro p h1 h2 h3
    simp [getMaxSessions, h1, h2, h3]
  · intro redis ms u plan d token meta now oldest hlen hhead
    have hsorted : List.Sorted byCreatedAt (getUserSessions redis u).1 :=
      List.sorted_insertionSort byCreatedAt _
    obtain ⟨tail, hactive⟩ : ∃ tail,
        (getUserSessions redis u).1 = oldest :: tail := by
      cases hact : (getUserSessions redis u).1 with
      | nil => rw [hact] at hhead; simp at hhead
      | cons a t =>
          rw [hact] at hhead
          simp at hhead
          exact ⟨t, by rw [hhead]⟩
    constructor
    · intro s hs
      rw [hactive] at hs hsorted
      rcases List.mem_cons.mp hs with h | h
      · rw [h]
      · exact (List.sorted_cons.mp hsorted).1 s h
    · intro hne
      show alGet _ (u, oldest.deviceId) = none
      have hkey : (u, oldest.deviceId) ≠ ((u, d) : Nat × String) := by
        simp [hne]
      simp only [sessionEnforcementAndCreate, hactive, if_pos]
      rw [if_pos (by rw [hactive] at hlen; simpa using hlen)]
      simp only [List.head?]
      show alGet (alSet _ (u, d) _) (u, oldest.deviceId) = none
      rw [alGet_alSet_ne _ _ _ _ hkey]
      exact alGet_alDel_self _ _

def c4sessA : SessionData :=
  { token := "t1", deviceId := "da", userId := 7, createdAt := 50,
    lastActivity := 50 }

def c4sessB : SessionData :=
  { token := "t2", deviceId := "db", userId := 7, createdAt := 20,
    lastActivity := 60 }

def c4stW : RedisState :=
  { sessions := [((7, "da"), c4sessA), ((7, "db"), c4sessB)],
    userSessions := [(7, ["da", "db"])] }

def c4oldW : SessionData := c4sessB

/-- C4 witness: the eviction-minimality clause applied to a concrete
two-session store at its BASIC limit. -/
theorem c4_witness :
    ∀ s ∈ (getUserSessions c4stW 7).1, c4oldW.createdAt ≤ s.createdAt :=
  ((c4_session_limit_fifo.2.1 c4stW [] 7 "BASIC" "dev3" "tok3" {} 300 c4oldW
    (by decide) (by decide)).1)

/-! ## C6 — spoofing weights and the two thresholds -/

theorem evaluateRules_cons (renv : RuleEnv) (aenv : ActionEnv)
    (ctx : AlertContext) (st : RedisState) (r : Rule) (rest : List Rule) :
    evaluateRules renv aenv ctx st (r :: rest) =
      ((processRule renv aenv ctx st r).1.toList ++
         (evaluateRules renv aenv ctx
           (processRule renv aenv ctx st r).2.1 rest).1,
       (evaluateRules renv aenv ctx
           (processRule renv aenv ctx st r).2.1 rest).2.1,
       (processRule renv aenv ctx st r).2.2 ++
         (evaluateRules renv aenv ctx
           (processRule renv aenv ctx st r).2.1 rest).2.2) := rfl

/-- One step of the `executeActions` loop, as a rewriting equation. -/
theorem executeActions_cons (aenv : ActionEnv) (rid : String) (alert : Alert)
    (ctx : AlertContext) (st : RedisState) (a : String) (rest : List String) :
    executeActions aenv rid alert ctx st (a :: rest) =
      ((executeActions aenv rid alert ctx
          (execOneAction aenv rid alert ctx st a).1 rest).1,
       (execOneAction aenv rid alert ctx st a).2 ++
         (executeActions aenv rid alert ctx
           (execOneAction aenv rid alert ctx st a).1 rest).2) := rfl

theorem mem_sAdd_self {α : Type} [DecidableEq α] (l : List α) (a : α) :
    a ∈ sAdd l a := by
  unfold sAdd
  split_ifs with h
  · exact h
  · simp

theorem execOneAction_blockedUsers (aenv : ActionEnv) (rid : String)
    (alert : Alert) (ctx : AlertContext) (st : RedisState) (a : String)
    (h : a ≠ "temporary_block") :
    (execOneAction aenv rid alert ctx st a).1.blockedUsers =
      st.blockedUsers := by
  unfold execOneAction
  split_ifs <;>
    first
    | rfl
    | exact absurd (by assumption : a = "temporary_block") h
    | rcases aenv.email alert with _ | _ <;> rfl
    | rcases aenv.slack alert with _ | _ <;> rfl

theorem executeActions_blockedUsers (aenv : ActionEnv) (rid : String)
    (alert : Alert) (ctx : AlertContext) :
    ∀ (acts : List String) (st : RedisState), "temporary_block" ∉ acts →
      (executeActions aenv rid alert ctx st acts).1.blockedUsers =
        st.blockedUsers := by
  intro acts
  induction acts with
  | nil => intro st _; rfl
  | cons a rest ih =>
      intro st h
      have ha : a ≠ "temporary_block" := fun he =>
        h (by rw [he]; exact List.mem_cons_self _ _)
      rw [executeActions_cons]
      exact (ih _ fun hmem => h (List.mem_cons_of_mem a hmem)).trans
        (execOneAction_blockedUsers aenv rid alert ctx st a ha)

theorem processRule_blockedUsers (renv : RuleEnv) (aenv : ActionEnv)
    (ctx : AlertContext) (st : RedisState) (r : Rule)
    (h : "temporary_block" ∉ r.actions) :
    (processRule renv aenv ctx st r).2.1.blockedUsers = st.blockedUsers := by
  unfold processRule
  rcases hc : r.condition renv ctx with ec | b
  · rfl
  · cases b with
    | false => rfl
    | true =>
        rcases hm : r.message renv ctx with em | msg
        · rfl
        · dsimp only
          set A : Alert :=
            { ruleId := r.id, ruleName := r.name, severity := r.severity,
              message := msg, timestamp := renv.now,
              ctxUserId := ctx.userId, ctxEmail := ctx.email,
              ctxDeviceId := ctx.deviceId, ctxIpAddress := ctx.ipAddress,
              ctxLocation := ctx.location }
          rcases aenv.store A with es | u
          · exact executeActions_blockedUsers aenv r.id A ctx r.actions st h
          · exact executeActions_blockedUsers aenv r.id A ctx r.actions st h

theorem processRule_blockedUsers_of_false (renv : RuleEnv) (aenv : ActionEnv)
    (ctx : AlertContext) (st : RedisState) (r : Rule)
    (hc : r.condition renv ctx = .ok false) :
    (processRule renv aenv ctx st r).2.1.blockedUsers = st.blockedUsers := by
  unfold processRule
  rw [hc]

theorem evaluateRules_blockedUsers_pres (renv : RuleEnv) (aenv : ActionEnv)
    (ctx : AlertContext) :
    ∀ rules : List Rule,
      (∀ r ∈ rules, ∀ st' : RedisState,
        (processRule renv aenv ctx st' r).2.1.blockedUsers =
          st'.blockedUsers) →
      ∀ st : RedisState,
        (evaluateRules renv aenv ctx st rules).2.1.blockedUsers =
          st.blockedUsers := by
  intro rules
  induction rules with
  | nil => intro _ st; rfl
  | cons r rest ih =>
      intro h st
      rw [evaluateRules_cons]
      exact (ih (fun r' hr' => h r' (List.mem_cons_of_mem r hr'))
        _).trans (h r (List.mem_cons_self r rest) st)

/-- The fixed rule table never suspends a user on a context whose
`failedAttempts` and `passwordChanged` fields are absent (as in the
context the login handler assembles): the only two rules carrying a
`temporary_block` action have false conditions there, and every other
action leaves `blocked:{userId}` untouched. -/
theorem theRules_preserve_blockedUsers (renv : RuleEnv) (aenv : ActionEnv)
    (ctx : AlertContext) (hfa : ctx.failedAttempts = none)
    (hpc : ctx.passwordChanged = none) :
    ∀ st : RedisState,
      (evaluateRules renv aenv ctx st theRules).2.1.blockedUsers =
        st.blockedUsers := by
  apply evaluateRules_blockedUsers_pres
  intro r hr st'
  simp only [theRules, List.mem_cons, List.not_mem_nil, or_false] at hr
  rcases hr with rfl | rfl | rfl | rfl | rfl | rfl | rfl | rfl | rfl | rfl
  · exact processRule_blockedUsers _ _ _ _ _ (by decide)
  · exact processRule_blockedUsers _ _ _ _ _ (by decide)
  · exact processRule_blockedUsers _ _ _ _ _ (by decide)
  · exact processRule_blockedUsers_of_false _ _ _ _ _
      (by simp [multipleFailedLoginsRule, hfa])
  · exact processRule_blockedUsers _ _ _ _ _ (by decide)
  · exact processRule_blockedUsers _ _ _ _ _ (by decide)
  · exact processRule_blockedUsers _ _ _ _ _ (by decide)
  · exact processRule_blockedUsers _ _ _ _ _ (by decide)
  · exact processRule_blockedUsers _ _ _ _ _ (by decide)
  · exact processRule_blockedUsers_of_false _ _ _ _ _
      (by simp [accountTakeoverRule, hpc])

def emptyComponents : Components :=
  { userAgent := "", ip := "", browser := "", browserVersion := "",
    engine := "", os := "", osVersion := "", deviceType := "",
    deviceVendor := "", deviceModel := "", cpu := "", acceptLanguage := "",
    acceptEncoding := "", accept := "", screenResolution := "",
    timezone := "", timezoneOffset := "", canvas := "", webgl := "",
    fonts := "", plugins := "", audioContext := "", platform := "",
    hardwareConcurrency := "", deviceMemory := "", colorDepth := "",
    pixelRatio := "" }

/-- C6 counterexample: on an all-empty component mapping the risk score
is 30 + 40 = 70, so `isSuspicious` is true although the claimed
"riskScore > 70" is false — `isSuspicious` is the >50 flag, not the >70
block threshold. -/
theorem c6_spoof_counterexample :
    (detectSpoofing emptyComponents).isSuspicious = true ∧
    (detectSpoofing emptyComponents).riskScore = 70 ∧
    ¬((detectSpoofing emptyComponents).riskScore > 70) := by
  refine ⟨by decide, by decide, by decide⟩

theorem detectSpoofing_isSuspicious_iff (c : Components) :
    (detectSpoofing c).isSuspicious = true ↔
      (detectSpoofing c).riskScore > 50 := by
  obtain ⟨r, hr1, hr2⟩ : ∃ r, (detectSpoofing c).riskScore = min 100 r ∧
      (detectSpoofing c).isSuspicious = decide (r > 50) := ⟨_, rfl, rfl⟩
  rw [hr1, hr2, decide_eq_true_iff]
  omega

/-- C6 amended: risk accumulates additively (user-agent absent/short
+30, +50 per automation token — the source also scans a seventh token
`automation` — platform/OS inconsistency +25, missing client signals
+40) capped at 100; `isSuspicious` is the riskScore > 50 flag; the
login handler rejects with the 403 suspicious-activity response and
suspends the user (`blockUser`, the `blocked:{userId}` key) exactly
when riskScore > 70 (it requires `isSuspicious` *and* >70, and >70
implies >50); below that threshold the suspension set is left
untouched. -/
theorem c6_spoof_thresholds :
    (∀ c : Components,
      (detectSpoofing c).riskScore =
        min 100
          ((if c.userAgent = "" ∨ c.userAgent.length < 20 then 30 else 0) +
           50 * (automationSignals.filter
             (fun sig => strContains (strLower c.userAgent) sig)).length +
           (if (c.platform ≠ "" && c.os ≠ "" &&
               ((strContains (strLower c.platform) "win" &&
                 !strContains (strLower c.os) "windows") ||
                (strContains (strLower c.platform) "mac" &&
                 !strContains (strLower c.os) "mac") ||
                (strContains (strLower c.platform) "linux" &&
                 !strContains (strLower c.os) "linux")) : Bool)
            then 25 else 0) +
           (if (c.canvas = "" && c.webgl = "" && c.fonts = "" : Bool)
            then 40 else 0))) ∧
    (∀ c : Components,
      (detectSpoofing c).isSuspicious = true ↔
        (detectSpoofing c).riskScore > 50) ∧
    (∀ env st req user,
      findUserByEmail st.mongo req.email = some user →
      env.bcryptCompare req.password user.passwordHash = true →
      ((∃ e m w, (login env st req).1 = .forbidden e m w) ↔
        (detectSpoofing (generateEnhancedFingerprint
          (env.uaParse req.userAgent) req).2.1).riskScore > 70)) ∧
    (∀ env st req user,
      findUserByEmail st.mongo req.email = some user →
      env.bcryptCompare req.password user.passwordHash = true →
      ((detectSpoofing (generateEnhancedFingerprint
          (env.uaParse req.userAgent) req).2.1).riskScore > 70 →
        (login env st req).1 = .forbidden "Suspicious activity detected"
          "Your login attempt has been flagged for security review."
          (detectSpoofing (generateEnhancedFingerprint
            (env.uaParse req.userAgent) req).2.1).warnings ∧
        (login env st req).2.1.redis = blockUser st.redis user.id ∧
        user.id ∈ (login env st req).2.1.redis.blockedUsers) ∧
      (¬(detectSpoofing (generateEnhancedFingerprint
          (env.uaParse req.userAgent) req).2.1).riskScore > 70 →
        (login env st req).2.1.redis.blockedUsers =
          st.redis.blockedUsers)) := by
  refine ⟨fun c => rfl, detectSpoofing_isSuspicious_iff, ?_, ?_⟩
  · intro env st req user hu hb
    simp only [login, hu, hb, not_true, if_neg, if_false]
    by_cases hr : (detectSpoofing (generateEnhancedFingerprint
        (env.uaParse req.userAgent) req).2.1).riskScore > 70
    · have hs : (detectSpoofing (generateEnhancedFingerprint
          (env.uaParse req.userAgent) req).2.1).isSuspicious = true :=
        (detectSpoofing_isSuspicious_iff _).mpr (by omega)
      rw [if_pos ⟨by rw [hs], hr⟩]
      exact ⟨fun _ => hr, fun _ => ⟨_, _, _, rfl⟩⟩
    · rw [if_neg (fun hcontra => hr hcontra.2)]
      constructor
      · intro ⟨e, m, w, heq⟩
        by_cases hgeo : (checkGeoImpossibility
            (env.geoLookup ((req.xForwardedFor <|> req.remoteAddress).getD ""))
            (alGet st.redis.lastLocation user.id) env.now).1.isImpossible
        · rw [if_pos hgeo] at heq
          exact absurd heq (by simp)
        · rw [if_neg hgeo] at heq
          exact absurd heq (by simp)
      · intro h
        exact absurd h hr
  · intro env st req user hu hb
    simp only [login, hu, hb, not_true, if_neg, if_false]
    constructor
    · intro hr
      have hs : (detectSpoofing (generateEnhancedFingerprint
          (env.uaParse req.userAgent) req).2.1).isSuspicious = true :=
        (detectSpoofing_isSuspicious_iff _).mpr (by omega)
      rw [if_pos ⟨by rw [hs], hr⟩]
      exact ⟨rfl, rfl, mem_sAdd_self _ _⟩
    · intro hr
      rw [if_neg (fun hcontra => hr hcontra.2)]
      by_cases hgeo : (checkGeoImpossibility
          (env.geoLookup ((req.xForwardedFor <|> req.remoteAddress).getD ""))
          (alGet st.redis.lastLocation user.id) env.now).1.isImpossible
      · rw [if_pos hgeo]
        rcases hlo : (checkGeoImpossibility
            (env.geoLookup ((req.xForwardedFor <|> req.remoteAddress).getD ""))
            (alGet st.redis.lastLocation user.id) env.now).2 with _ | loc
        · dsimp only
          exact theRules_preserve_blockedUsers _ _ _ rfl rfl st.redis
        · dsimp only
          exact theRules_preserve_blockedUsers _ _ _ rfl rfl
            { st.redis with
              lastLocation := alSet st.redis.lastLocation user.id loc }
      · rw [if_neg hgeo]
        rcases hlo : (checkGeoImpossibility
            (env.geoLookup ((req.xForwardedFor <|> req.remoteAddress).getD ""))
            (alGet st.redis.lastLocation user.id) env.now).2 with _ | loc <;>
          simp [trustScoreStep]

def okActionEnv : ActionEnv :=
  { email := fun _ => .ok (), slack := fun _ => .ok (),
    store := fun _ => .ok () }

def uaNone : UAResult :=
  { browserName := none, browserVersion := none, engineName := none,
    osName := none, osVersion := none, deviceType := none,
    deviceVendor := none, deviceModel := none, cpuArch := none }

def c6env : Env :=
  { bcryptCompare := fun p h => p == h, uaParse := fun _ => uaNone,
    geoLookup := fun _ => none, jwtSign := fun _ _ _ => "jwt",
    otp := "123456", now := 0, hour := 12, aenv := okActionEnv }

def c6user : UserRec := { id := 1, email := "a@b.c", passwordHash := "pw" }

def c6st : St := { mongo := { users := [c6user] } }

def c6req : Request := { email := "a@b.c", password := "pw" }

def c6reqBlock : Request :=
  { userAgent := some "headless", email := "a@b.c", password := "pw" }

/-- C6 witness: the block-iff clause at a concrete request whose spoof
risk is exactly 70 (403 not issued, suspension set untouched), and the
403-plus-suspension effect at a concrete "headless" request whose risk
is capped at 100. -/
theorem c6_witness :
    ((∃ e m w, (login c6env c6st c6req).1 = .forbidden e m w) ↔
      (detectSpoofing (generateEnhancedFingerprint
        (c6env.uaParse c6req.userAgent) c6req).2.1).riskScore > 70) ∧
    (login c6env c6st c6reqBlock).1 =
      .forbidden "Suspicious activity detected"
        "Your login attempt has been flagged for security review."
        (detectSpoofing (generateEnhancedFingerprint
          (c6env.uaParse c6reqBlock.userAgent) c6reqBlock).2.1).warnings ∧
    1 ∈ (login c6env c6st c6reqBlock).2.1.redis.blockedUsers ∧
    (login c6env c6st c6req).2.1.redis.blockedUsers =
      c6st.redis.blockedUsers :=
  ⟨c6_spoof_thresholds.2.2.1 c6env c6st c6req c6user (by decide) (by decide),
   ((c6_spoof_thresholds.2.2.2 c6env c6st c6reqBlock c6user (by decide)
       (by decide)).1 (by decide)).1,
   ((c6_spoof_thresholds.2.2.2 c6env c6st c6reqBlock c6user (by decide)
       (by decide)).1 (by decide)).2.2,
   (c6_spoof_thresholds.2.2.2 c6env c6st c6req c6user (by decide)
       (by decide)).2 (by decide)⟩

/-! ## C7 / C8 — alert rule engine properties -/

/-- The rule an engine event is attributed to. -/
def eventRuleId : EngineEvent → String
  | .emailSent r => r
  | .slackSent r => r
  | .sessionBlocked r _ _ => r
  | .tempBlocked r _ => r
  | .flagged r _ => r
  | .logged r _ => r
  | .unknownAction r _ => r
  | .actionFailed r _ _ => r
  | .ruleFailed r _ => r

theorem execOneAction_tags (aenv : ActionEnv) (rid : String) (alert : Alert)
    (ctx : AlertContext) (st : RedisState) (a : String) :
    ∀ e ∈ (execOneAction aenv rid alert ctx st a).2, eventRuleId e = rid := by
  intro e he
  unfold execOneAction at he
  split_ifs at he
  · revert he
    rcases aenv.email alert with _ | _ <;> intro he <;>
      simp only [List.mem_singleton] at he <;> subst he <;> rfl
  · revert he
    rcases aenv.slack alert with _ | _ <;> intro he <;>
      simp only [List.mem_singleton] at he <;> subst he <;> rfl
  all_goals simp only [List.mem_singleton] at he; subst he; rfl

theorem executeActions_tags (aenv : ActionEnv) (rid : String) (alert : Alert)
    (ctx : AlertContext) :
    ∀ acts st, ∀ e ∈ (executeActions aenv rid alert ctx st acts).2,
      eventRuleId e = rid := by
  intro acts
  induction acts with
  | nil => intro st e he; simp [executeActions] at he
  | cons a rest ih =>
      intro st e he
      simp only [executeActions] at he
      rcases List.mem_append.mp he with h | h
      · exact execOneAction_tags aenv rid alert ctx st a e h
      · exact ih _ e h

theorem processRule_event_tags (renv : RuleEnv) (aenv : ActionEnv)
    (ctx : AlertContext) (st : RedisState) (r : Rule) :
    ∀ e ∈ (processRule renv aenv ctx st r).2.2, eventRuleId e = r.id := by
  intro e he
  unfold processRule at he
  rcases hc : r.condition renv ctx with ec | b
  · rw [hc] at he
    simp only [List.mem_singleton] at he; subst he; rfl
  · rw [hc] at he
    cases b with
    | false => simp at he
    | true =>
        rcases hm : r.message renv ctx with em | msg
        · rw [hm] at he
          simp only [List.mem_singleton] at he; subst he; rfl
        · rw [hm] at he
          dsimp only at he
          set A : Alert :=
            { ruleId := r.id, ruleName := r.name, severity := r.severity,
              message := msg, timestamp := renv.now,
              ctxUserId := ctx.userId, ctxEmail := ctx.email,
              ctxDeviceId := ctx.deviceId, ctxIpAddress := ctx.ipAddress,
              ctxLocation := ctx.location } with hAdef
          rcases hea : executeActions aenv r.id A ctx st r.actions
            with ⟨st1, evs⟩
          rw [hea] at he
          rcases hs : aenv.store A with es | u <;>
            rw [hs] at he <;> simp only at he
          · rcases List.mem_append.mp he with h | h
            · exact executeActions_tags aenv r.id A ctx r.actions st e
                (by rw [hea]; exact h)
            · simp only [List.mem_singleton] at h; subst h; rfl
          · exact executeActions_tags aenv r.id A ctx r.actions st e
              (by rw [hea]; exact he)

theorem processRule_alert_tag (renv : RuleEnv) (aenv : ActionEnv)
    (ctx : AlertContext) (st : RedisState) (r : Rule) :
    ∀ a, (processRule renv aenv ctx st r).1 = some a → a.ruleId = r.id := by
  intro a ha
  unfold processRule at ha
  rcases hc : r.condition renv ctx with ec | b
  · rw [hc] at ha; simp at ha
  · rw [hc] at ha
    cases b with
    | false => simp at ha
    | true =>
        rcases hm : r.message renv ctx with em | msg
        · rw [hm] at ha; simp at ha
        · rw [hm] at ha
          dsimp only at ha
          set A : Alert :=
            { ruleId := r.id, ruleName := r.name, severity := r.severity,
              message := msg, timestamp := renv.now,
              ctxUserId := ctx.userId, ctxEmail := ctx.email,
              ctxDeviceId := ctx.deviceId, ctxIpAddress := ctx.ipAddress,
              ctxLocation := ctx.location } with hAdef
          rcases hea : executeActions aenv r.id A ctx st r.actions
            with ⟨st1, evs⟩
          rw [hea] at ha
          rcases hs : aenv.store A with es | u <;>
            rw [hs] at ha <;> simp only at ha
          · simp at ha
          · simp only [Option.some.injEq] at ha
            subst ha
            rw [hAdef]

theorem evaluateRules_event_tags (renv : RuleEnv) (aenv : ActionEnv)
    (ctx : AlertContext) :
    ∀ rules st, ∀ e ∈ (evaluateRules renv aenv ctx st rules).2.2,
      ∃ r ∈ rules, eventRuleId e = r.id := by
  intro rules
  induction rules with
  | nil => intro st e he; simp [evaluateRules] at he
  | cons r rest ih =>
      intro st e he
      simp only [evaluateRules] at he
      rcases List.mem_append.mp he with h | h
      · exact ⟨r, List.mem_cons_self r rest,
          processRule_event_tags renv aenv ctx st r e h⟩
      · obtain ⟨r', hr', he'⟩ := ih _ e h
        exact ⟨r', List.mem_cons_of_mem r hr', he'⟩

theorem evaluateRules_alert_tags (renv : RuleEnv) (aenv : ActionEnv)
    (ctx : AlertContext) :
    ∀ rules st, ∀ a ∈ (evaluateRules renv aenv ctx st rules).1,
      ∃ r ∈ rules, a.ruleId = r.id := by
  intro rules
  induction rules with
  | nil => intro st a ha; simp [evaluateRules] at ha
  | cons r rest ih =>
      intro st a ha
      simp only [evaluateRules] at ha
      rcases List.mem_append.mp ha with h | h
      · rcases hpr : (processRule renv aenv ctx st r).1 with _ | a'
        · rw [hpr] at h; simp at h
        · rw [hpr] at h
          simp only [Option.toList_some, List.mem_singleton] at h
          subst h
          exact ⟨r, List.mem_cons_self r rest,
            processRule_alert_tag renv aenv ctx st r a hpr⟩
      · obtain ⟨r', hr', ha'⟩ := ih _ a h
        exact ⟨r', List.mem_cons_of_mem r hr', ha'⟩

/-- The nine rules after `geo_impossibility` in the table. -/
def tailRules : List Rule :=
  [trustScoreCriticalRule, deviceSharingRule, multipleFailedLoginsRule,
   sessionLimitExceededRule, unusualLoginHoursRule, vpnDetectedRule,
   rapidLocationChangesRule, newDeviceHighRiskRule, accountTakeoverRule]

theorem tailRules_not_geo : ∀ r ∈ tailRules, r.id ≠ "geo_impossibility" := by
  intro r hr
  simp only [tailRules, List.mem_cons, List.not_mem_nil, or_false] at hr
  rcases hr with rfl | rfl | rfl | rfl | rfl | rfl | rfl | rfl | rfl <;> decide

/-- C7: on a context flagged geo-impossible (with the external mail,
slack and persistence channels operating normally), evaluating the rule
table triggers the `geo_impossibility` rule exactly once, and the
effects attributed to it are exactly one email dispatch, one slack
dispatch and one deletion of the current (userId, deviceId) session, in
the rule's declared action order. -/
theorem c7_geo_rule_actions (renv : RuleEnv) (aenv : ActionEnv)
    (ctx : AlertContext) (st : RedisState) (g : GeoResult)
    (hg : ctx.geoCheck = some g) (hi : g.isImpossible = true)
    (hemail : ∀ a, aenv.email a = .ok ())
    (hslack : ∀ a, aenv.slack a = .ok ())
    (hstore : ∀ a, aenv.store a = .ok ()) :
    ((evaluateRules renv aenv ctx st theRules).1.filter
        (fun a => a.ruleId == "geo_impossibility")).length = 1 ∧
    (evaluateRules renv aenv ctx st theRules).2.2.filter
        (fun e => eventRuleId e == "geo_impossibility") =
      [.emailSent "geo_impossibility", .slackSent "geo_impossibility",
       .sessionBlocked "geo_impossibility" ctx.userId ctx.deviceId] := by
  have hev : (processRule renv aenv ctx st geoImpossibilityRule).2.2 =
      [.emailSent "geo_impossibility", .slackSent "geo_impossibility",
       .sessionBlocked "geo_impossibility" ctx.userId ctx.deviceId] := by
    simp [processRule, geoImpossibilityRule, executeActions, execOneAction,
      hg, hi, hemail, hslack, hstore]
  have hEq : evaluateRules renv aenv ctx st theRules =
      ((processRule renv aenv ctx st geoImpossibilityRule).1.toList ++
         (evaluateRules renv aenv ctx
           (processRule renv aenv ctx st geoImpossibilityRule).2.1
           tailRules).1,
       (evaluateRules renv aenv ctx
           (processRule renv aenv ctx st geoImpossibilityRule).2.1
           tailRules).2.1,
       (processRule renv aenv ctx st geoImpossibilityRule).2.2 ++
         (evaluateRules renv aenv ctx
           (processRule renv aenv ctx st geoImpossibilityRule).2.1
           tailRules).2.2) := rfl
  have htailA : ∀ stx, ((evaluateRules renv aenv ctx stx tailRules).1.filter
      (fun a => a.ruleId == "geo_impossibility")) = [] := by
    intro stx
    refine List.filter_eq_nil_iff.mpr fun a ha => ?_
    obtain ⟨r, hr, heq⟩ := evaluateRules_alert_tags renv aenv ctx tailRules stx a ha
    simp [heq, tailRules_not_geo r hr]
  have htailE : ∀ stx, ((evaluateRules renv aenv ctx stx tailRules).2.2.filter
      (fun e => eventRuleId e == "geo_impossibility")) = [] := by
    intro stx
    refine List.filter_eq_nil_iff.mpr fun e he => ?_
    obtain ⟨r, hr, heq⟩ := evaluateRules_event_tags renv aenv ctx tailRules stx e he
    simp [heq, tailRules_not_geo r hr]
  rcases hA : (processRule renv aenv ctx st geoImpossibilityRule).1 with _ | A
  · exfalso
    simp [processRule, geoImpossibilityRule, executeActions, execOneAction,
      hg, hi, hemail, hslack, hstore] at hA
  · have hid : A.ruleId = "geo_impossibility" :=
      processRule_alert_tag renv aenv ctx st geoImpossibilityRule A hA
    rw [hEq]
    constructor
    · simp [hA, List.filter_append, htailA, hid]
    · show List.filter _ (_ ++ _) = _
      rw [List.filter_append, hev, htailE]
      simp [eventRuleId]

/-- C8: rules are isolated — `evaluateRules` over a concatenation is the
concatenation of the two runs (so evaluation always reaches every later
rule); a rule whose condition throws contributes exactly one
`ruleFailed` diagnostic, leaves the store untouched and triggers
nothing; `executeActions` likewise decomposes over concatenation (so
every later action still runs); and a throwing email dispatch leaves
the store untouched and contributes exactly one `actionFailed`
diagnostic.  All four functions are total, so no failure ever
propagates to the login flow. -/
theorem c8_rule_action_isolation :
    (∀ renv aenv ctx st (rs1 rs2 : List Rule),
      evaluateRules renv aenv ctx st (rs1 ++ rs2) =
        ((evaluateRules renv aenv ctx st rs1).1 ++
           (evaluateRules renv aenv ctx
             (evaluateRules renv aenv ctx st rs1).2.1 rs2).1,
         (evaluateRules renv aenv ctx
             (evaluateRules renv aenv ctx st rs1).2.1 rs2).2.1,
         (evaluateRules renv aenv ctx st rs1).2.2 ++
           (evaluateRules renv aenv ctx
             (evaluateRules renv aenv ctx st rs1).2.1 rs2).2.2)) ∧
    (∀ renv aenv ctx st r err, r.condition renv ctx = .error err →
      processRule renv aenv ctx st r = (none, st, [.ruleFailed r.id err])) ∧
    (∀ aenv rid alert ctx st (l1 l2 : List String),
      executeActions aenv rid alert ctx st (l1 ++ l2) =
        ((executeActions aenv rid alert ctx
            (executeActions aenv rid alert ctx st l1).1 l2).1,
         (executeActions aenv rid alert ctx st l1).2 ++
           (executeActions aenv rid alert ctx
             (executeActions aenv rid alert ctx st l1).1 l2).2)) ∧
    (∀ aenv rid alert ctx st err, aenv.email alert = .error err →
      execOneAction aenv rid alert ctx st "email" =
        (st, [.actionFailed rid "email" err])) := by
  refine ⟨?_, ?_, ?_, ?_⟩
  · intro renv aenv ctx st rs1 rs2
    induction rs1 generalizing st with
    | nil => simp [evaluateRules]
    | cons r rest ih =>
        rw [List.cons_append, evaluateRules_cons, evaluateRules_cons, ih]
        simp
  · intro renv aenv ctx st r err h
    unfold processRule
    rw [h]
  · intro aenv rid alert ctx st l1 l2
    induction l1 generalizing st with
    | nil => simp [executeActions]
    | cons a rest ih =>
        rw [List.cons_append, executeActions_cons, executeActions_cons, ih]
        simp
  · intro aenv rid alert ctx st err h
    unfold execOneAction
    rw [if_pos rfl, h]

def renvW : RuleEnv := { now := 0, hour := 12 }

def ctxW : AlertContext :=
  { userId := 1, email := "a@b.c", deviceId := "dev", ipAddress := "1.2.3.4" }

def badRule : Rule :=
  { id := "bad", name := "Bad", condition := fun _ _ => .error "boom",
    severity := "LOW", actions := [], message := fun _ _ => .ok "" }

/-- C8 witness: a throwing rule at a concrete context is isolated. -/
theorem c8_witness :
    processRule renvW okActionEnv ctxW {} badRule =
      (none, {}, [.ruleFailed "bad" "boom"]) :=
  c8_rule_action_isolation.2.1 renvW okActionEnv ctxW {} badRule "boom" rfl

def geoResW : GeoResult :=
  { isImpossible := true, reason := "Impossible travel", riskScore := 95 }

def ctxGeoW : AlertContext :=
  { userId := 1, email := "a@b.c", deviceId := "dev", ipAddress := "1.2.3.4",
    geoCheck := some geoResW }

/-- C7 witness: the geo-impossible context at a concrete store. -/
theorem c7_witness :
    ((evaluateRules renvW okActionEnv ctxGeoW {} theRules).1.filter
        (fun a => a.ruleId == "geo_impossibility")).length = 1 ∧
    (evaluateRules renvW okActionEnv ctxGeoW {} theRules).2.2.filter
        (fun e => eventRuleId e == "geo_impossibility") =
      [.emailSent "geo_impossibility", .slackSent "geo_impossibility",
       .sessionBlocked "geo_impossibility" 1 "dev"] :=
  c7_geo_rule_actions renvW okActionEnv ctxGeoW {} geoResW rfl rfl
    (fun _ => rfl) (fun _ => rfl) (fun _ => rfl)

/-! ## C2 / C1 — the temporal-dead-zone defect in the login handler -/

/-- C2: every request that passes credential validation, is not blocked
by the spoofing gate, and is not flagged geo-impossible reaches the
line-124 read of the not-yet-declared `device` binding, so the handler
answers 500 "Login failed"; no session is created, no OTP is issued and
no alert/email event is emitted on this path — the success, new-device
OTP and session-enforcement stages are unreachable. -/
theorem c2_tdz_login_always_500 (env : Env) (st : St) (req : Request)
    (user : UserRec)
    (hu : findUserByEmail st.mongo req.email = some user)
    (hb : env.bcryptCompare req.password user.passwordHash = true)
    (hs : ¬((detectSpoofing (generateEnhancedFingerprint
        (env.uaParse req.userAgent) req).2.1).isSuspicious = true ∧
      (detectSpoofing (generateEnhancedFingerprint
        (env.uaParse req.userAgent) req).2.1).riskScore > 70))
    (hg : (checkGeoImpossibility
        (env.geoLookup ((req.xForwardedFor <|> req.remoteAddress).getD ""))
        (alGet st.redis.lastLocation user.id) env.now).1.isImpossible
        = false) :
    (login env st req).1 = .serverError "Login failed"
        "Cannot access 'device' before initialization" ∧
    (login env st req).2.1.redis.sessions = st.redis.sessions ∧
    (login env st req).2.2 = [] := by
  simp only [login, hu, hb, not_true, if_neg, if_false]
  rw [if_neg hs]
  simp only [hg, Bool.false_eq_true, if_false]
  rcases hlo : (checkGeoImpossibility
      (env.geoLookup ((req.xForwardedFor <|> req.remoteAddress).getD ""))
      (alGet st.redis.lastLocation user.id) env.now).2 with _ | loc <;>
    simp [hlo, trustScoreStep]

def c2req : Request :=
  { userAgent := some "Mozilla/5.0 TestBrowser", email := "a@b.c",
    password := "pw", fingerprint := some { canvas := some "c" } }

/-- C2 witness: a concrete request that passes all three gates. -/
theorem c2_witness :
    (login c6env c6st c2req).1 = .serverError "Login failed"
      "Cannot access 'device' before initialization" :=
  (c2_tdz_login_always_500 c6env c6st c2req c6user (by decide) (by decide)
    (by decide) rfl).1

/-! ### C1 — the claimed end-to-end success scenario -/

def c1user : UserRec :=
  { id := 7, email := "u@ex.com", passwordHash := "pw", plan := "STANDARD" }

def c1req : Request :=
  { userAgent := some "Mozilla/5.0 TestBrowser",
    xForwardedFor := some "1.2.3.4", email := "u@ex.com", password := "pw",
    fingerprint := some { canvas := some "c" } }

def c1components : Components :=
  buildComponents uaNone c1req { canvas := some "c" }

def c1deviceId : String := deviceIdOf c1components

def c1geo : GeoLoc :=
  { country := "IN", city := "New Delhi", lat := 287/10, lon := 771/10 }

def c1env : Env :=
  { bcryptCompare := fun p h => p == h, uaParse := fun _ => uaNone,
    geoLookup := fun _ => some c1geo, jwtSign := fun _ _ _ => "jwt",
    otp := "123456", now := 7776000000, hour := 12, aenv := okActionEnv }

def c1device : DeviceRec :=
  { userId := 7, deviceId := c1deviceId,
    userAgent := "Mozilla/5.0 TestBrowser", ipAddress := "1.2.3.4",
    trusted := true, createdAt := 0, lastLogin := 0 }

def c1session : SessionData :=
  { token := "t0", deviceId := "olddev", userId := 7, createdAt := 10,
    lastActivity := 10 }

def c1st : St :=
  { redis := { sessions := [((7, "olddev"), c1session)],
               userSessions := [(7, ["olddev"])] },
    mongo := { users := [c1user], devices := [c1device] } }

set_option maxRecDepth 1000000 in
/-- C1 (code bug): in the exact claimed scenario — STANDARD plan
(max 2), known trusted device, computed trust score 72 (MEDIUM), one
existing active session, credential/spoofing/geo gates all passing —
the handler does not succeed: the temporal-dead-zone read of `device`
makes it answer 500 "Login failed", and no session is created. -/
theorem c1_scenario_hits_500 :
    findDevice c1st.mongo 7 c1deviceId = some c1device ∧
    (detectSpoofing (generateEnhancedFingerprint
        (c1env.uaParse c1req.userAgent) c1req).2.1).riskScore = 0 ∧
    (checkGeoImpossibility (c1env.geoLookup "1.2.3.4")
        (alGet c1st.redis.lastLocation 7) c1env.now).1.isImpossible = false ∧
    (getUserSessions c1st.redis 7).1.length = 1 ∧
    getMaxSessions c1user.plan = 2 ∧
    (trustScoreStep c1env c1st 7 c1deviceId "1.2.3.4").1.score = 72 ∧
    (trustScoreStep c1env c1st 7 c1deviceId "1.2.3.4").1.level = "MEDIUM" ∧
    (login c1env c1st c1req).1 = .serverError "Login failed"
        "Cannot access 'device' before initialization" ∧
    (login c1env c1st c1req).2.1.redis.sessions = c1st.redis.sessions := by
  refine ⟨?_, ?_, ?_, ?_, ?_, ?_, ?_, ?_, ?_⟩ <;> decide

/-! ## C9 — fingerprint determinism and the hash-input injectivity -/

theorem compressStep_length (s : List Nat) (kw : Nat × Nat) :
    (compressStep s kw).length = 8 := rfl

theorem foldl_compressStep_length (kws : List (Nat × Nat)) (h : List Nat)
    (hh : h.length = 8) : (kws.foldl compressStep h).length = 8 := by
  induction kws generalizing h with
  | nil => simpa using hh
  | cons kw rest ih => exact ih _ (compressStep_length _ _)

theorem processBlock_length (h block : List Nat) (hh : h.length = 8) :
    (processBlock h block).length = 8 := by
  unfold processBlock
  simp [List.length_zip, hh, foldl_compressStep_length _ _ hh]

theorem processBlock_lt (h block : List Nat) :
    ∀ x ∈ processBlock h block, x < 4294967296 := by
  intro x hx
  unfold processBlock at hx
  obtain ⟨p, _, rfl⟩ := List.mem_map.mp hx
  exact Nat.mod_lt _ (by norm_num)

theorem sha256Words_spec (msg : List Nat) :
    (sha256Words msg).length = 8 ∧ ∀ x ∈ sha256Words msg, x < 4294967296 := by
  unfold sha256Words
  suffices hgen : ∀ (blocks : List (List Nat)) (h0 : List Nat),
      h0.length = 8 → (∀ x ∈ h0, x < 4294967296) →
      (blocks.foldl processBlock h0).length = 8 ∧
      ∀ x ∈ blocks.foldl processBlock h0, x < 4294967296 by
    exact hgen _ H256 (by decide) (by decide)
  intro blocks
  induction blocks with
  | nil => intro h0 hl hb; exact ⟨hl, hb⟩
  | cons b rest ih =>
      intro h0 hl _
      exact ih _ (processBlock_length _ _ hl) (processBlock_lt _ _)

/-- The SHA-256 digest as eight 32-bit words, packed into a finite
codomain. -/
def digestTuple (s : String) : Fin 8 → Fin 4294967296 := fun i =>
  ⟨(sha256Words (strBytes s)).getD i 0 % 4294967296,
   Nat.mod_lt _ (by norm_num)⟩

theorem sha256Hex_eq_of_digestTuple_eq (s t : String)
    (h : digestTuple s = digestTuple t) : sha256Hex s = sha256Hex t := by
  obtain ⟨hsl, hsb⟩ := sha256Words_spec (strBytes s)
  obtain ⟨htl, htb⟩ := sha256Words_spec (strBytes t)
  have hwords : sha256Words (strBytes s) = sha256Words (strBytes t) := by
    apply List.ext_getElem (by rw [hsl, htl])
    intro i h1 h2
    have hi : i < 8 := by rwa [hsl] at h1
    have hval := congrArg (fun f => (f ⟨i, hi⟩ : Fin 4294967296).val) h
    simp only [digestTuple] at hval
    rw [List.getD_eq_getElem _ 0 h1, List.getD_eq_getElem _ 0 h2] at hval
    rwa [Nat.mod_eq_of_lt (hsb _ (List.getElem_mem h1)),
      Nat.mod_eq_of_lt (htb _ (List.getElem_mem h2))] at hval
  unfold sha256Hex
  rw [hwords]

/-- `emptyComponents` with `accept` set to `n` repetitions of `a`. -/
def withAccept (n : Nat) : Components :=
  { emptyComponents with accept := String.mk (List.replicate n 'a') }

/-- C9 counterexample: "changing any single component value yields a
different DeviceId" is false in the absolute sense — the DeviceId ranges
over the finitely many 256-bit digests while a single component ranges
over infinitely many strings, so by pigeonhole two mappings that differ
only in the `accept` component share their DeviceId.  (The claim holds
only "with overwhelming probability", as §8 of the spec itself puts it.) -/
theorem c9_collision_exists :
    ∃ c c' : Components,
      c.accept ≠ c'.accept ∧
      c.userAgent = c'.userAgent ∧ c.ip = c'.ip ∧ c.browser = c'.browser ∧
      c.browserVersion = c'.browserVersion ∧ c.engine = c'.engine ∧
      c.os = c'.os ∧ c.osVersion = c'.osVersion ∧
      c.deviceType = c'.deviceType ∧ c.deviceVendor = c'.deviceVendor ∧
      c.deviceModel = c'.deviceModel ∧ c.cpu = c'.cpu ∧
      c.acceptLanguage = c'.acceptLanguage ∧
      c.acceptEncoding = c'.acceptEncoding ∧
      c.screenResolution = c'.screenResolution ∧ c.timezone = c'.timezone ∧
      c.timezoneOffset = c'.timezoneOffset ∧ c.canvas = c'.canvas ∧
      c.webgl = c'.webgl ∧ c.fonts = c'.fonts ∧ c.plugins = c'.plugins ∧
      c.audioContext = c'.audioContext ∧ c.platform = c'.platform ∧
      c.hardwareConcurrency = c'.hardwareConcurrency ∧
      c.deviceMemory = c'.deviceMemory ∧ c.colorDepth = c'.colorDepth ∧
      c.pixelRatio = c'.pixelRatio ∧
      deviceIdOf c = deviceIdOf c' := by
  obtain ⟨m, n, hmn, heq⟩ := Finite.exists_ne_map_eq_of_infinite
    fun k : ℕ => digestTuple (fingerprintString (withAccept k))
  refine ⟨withAccept m, withAccept n, ?_, rfl, rfl, rfl, rfl, rfl, rfl, rfl,
    rfl, rfl, rfl, rfl, rfl, rfl, rfl, rfl, rfl, rfl, rfl, rfl, rfl, rfl,
    rfl, rfl, rfl, rfl, rfl, ?_⟩
  · intro h
    apply hmn
    have hdata : List.replicate m 'a' = List.replicate n 'a' :=
      congrArg String.data h
    simpa using congrArg List.length hdata
  · exact sha256Hex_eq_of_digestTuple_eq _ _ heq

/-- `vs'` is `vs` with exactly one entry replaced by a different value. -/
inductive DiffOne {α : Type} : List α → List α → Prop
  | head (v v' : α) (t : List α) (h : v ≠ v') : DiffOne (v :: t) (v' :: t)
  | tail (v : α) (t t' : List α) (h : DiffOne t t') :
      DiffOne (v :: t) (v :: t')

theorem diffOne_shapes {α : Type} {t t' : List α} (h : DiffOne t t') :
    ∃ a t2 a' t2', t = a :: t2 ∧ t' = a' :: t2' := by
  cases h with
  | head v v' s _ => exact ⟨v, s, v', s, rfl, rfl⟩
  | tail v s s' _ => exact ⟨v, s, v, s', rfl, rfl⟩

/-- The sorted `key:value` join, over explicit key and value lists. -/
def joinKV (ks vs : List String) : String :=
  joinParts ((ks.zip vs).map fun kv => kv.1 ++ ":" ++ kv.2)

theorem str_append_left_cancel (a x y : String) (h : a ++ x = a ++ y) :
    x = y :=
  String.ext (List.append_cancel_left
    (congrArg String.data h : a.data ++ x.data = a.data ++ y.data))

theorem joinKV_ne : ∀ (ks vs vs' : List String), DiffOne vs vs' →
    ks.length = vs.length → joinKV ks vs ≠ joinKV ks vs' := by
  intro ks vs vs' hd
  induction hd generalizing ks with
  | head v v' t hne =>
      intro hlen
      cases ks with
      | nil => simp at hlen
      | cons k kt =>
          cases hrest : (kt.zip t).map (fun kv => kv.1 ++ ":" ++ kv.2) with
          | nil =>
              intro he
              simp only [joinKV, List.zip_cons_cons, List.map_cons, hrest,
                joinParts] at he
              exact hne (str_append_left_cancel (k ++ ":") v v' he)
          | cons p r =>
              intro he
              simp only [joinKV, List.zip_cons_cons, List.map_cons, hrest,
                joinParts] at he
              have hdata : k.data ++ (":".data ++ (v.data ++ ("|".data ++
                  (joinParts (p :: r)).data))) =
                  k.data ++ (":".data ++ (v'.data ++ ("|".data ++
                  (joinParts (p :: r)).data))) := by
                have := congrArg String.data he
                simpa [List.append_assoc] using this
              exact hne (String.ext (List.append_cancel_right
                (List.append_cancel_left (List.append_cancel_left hdata))))
  | tail v t t' hdt ih =>
      intro hlen
      cases ks with
      | nil => simp at hlen
      | cons k kt =>
          have hlen' : kt.length = t.length := by simpa using hlen
          have hne' := ih kt hlen'
          obtain ⟨a, t2, a', t2', rfl, rfl⟩ := diffOne_shapes hdt
          cases kt with
          | nil => simp at hlen'
          | cons k2 kt2 =>
              intro he
              apply hne'
              simp only [joinKV, List.zip_cons_cons, List.map_cons,
                joinParts] at he ⊢
              have hdata : (k ++ ":" ++ v).data ++ ("|".data ++
                  (joinParts ((k2 ++ ":" ++ a) ::
                    (kt2.zip t2).map fun kv => kv.1 ++ ":" ++ kv.2)).data) =
                  (k ++ ":" ++ v).data ++ ("|".data ++
                  (joinParts ((k2 ++ ":" ++ a') ::
                    (kt2.zip t2').map fun kv => kv.1 ++ ":" ++ kv.2)).data) := by
                have := congrArg String.data he
                simpa [List.append_assoc] using this
              exact String.ext (List.append_cancel_left
                (List.append_cancel_left hdata))

/-- C9 amended: fingerprint generation is deterministic — equal
component mappings yield equal DeviceIds — and changing any single
component value always changes the canonicalized `key:value` string that
is hashed (the entire mapping is covered by the hash, no partial-match
hashing); equality of the DeviceId itself is then only cryptographically
(not absolutely) guaranteed, per `c9_collision_exists`. -/
theorem generateEnhancedFingerprint_fst (ua : UAResult) (req : Request) :
    (generateEnhancedFingerprint ua req).1 =
      deviceIdOf (buildComponents ua req (req.fingerprint.getD {})) := by
  unfold generateEnhancedFingerprint
  rfl

theorem fingerprintString_eq_joinKV (c : Components) :
    fingerprintString c = joinKV componentKeys (componentValues c) := by
  unfold fingerprintString joinKV
  rfl

theorem c9_deterministic_full_input_hash :
    (∀ ua1 req1 ua2 req2,
      buildComponents ua1 req1 (req1.fingerprint.getD {}) =
        buildComponents ua2 req2 (req2.fingerprint.getD {}) →
      (generateEnhancedFingerprint ua1 req1).1 =
        (generateEnhancedFingerprint ua2 req2).1) ∧
    (∀ c c' : Components, DiffOne (componentValues c) (componentValues c') →
      fingerprintString c ≠ fingerprintString c') := by
  constructor
  · intro ua1 req1 ua2 req2 h
    rw [generateEnhancedFingerprint_fst, generateEnhancedFingerprint_fst, h]
  · intro c c' hd
    rw [fingerprintString_eq_joinKV, fingerprintString_eq_joinKV]
    exact joinKV_ne componentKeys (componentValues c) (componentValues c')
      hd (by simp [componentKeys, componentValues])

/-- C9 witness: determinism applied at a concrete request, and the
single-change clause at a concrete single-component change. -/
theorem c9_witness :
    (generateEnhancedFingerprint uaNone c2req).1 =
      (generateEnhancedFingerprint uaNone c2req).1 ∧
    fingerprintString emptyComponents ≠
      fingerprintString { emptyComponents with accept := "x" } :=
  ⟨c9_deterministic_full_input_hash.1 uaNone c2req uaNone c2req rfl,
   c9_deterministic_full_input_hash.2 emptyComponents
     { emptyComponents with accept := "x" }
     (DiffOne.head "" "x" _ (by decide))⟩

/-! ## C3 — geo-impossibility decision and the Delhi → New York instance -/

theorem cos_lb (x : ℝ) (h0 : 0 ≤ x) (h1 : x ≤ 1) :
    1 - x ^ 2 / 2 - x ^ 4 * (5 / 96) ≤ Real.cos x := by
  have hb := Real.cos_bound (x := x) (by rwa [abs_of_nonneg h0])
  rw [abs_of_nonneg h0] at hb
  have := (abs_le.mp hb).1
  linarith

theorem cos_ub (x : ℝ) (h0 : 0 ≤ x) (h1 : x ≤ 1) :
    Real.cos x ≤ 1 - x ^ 2 / 2 + x ^ 4 * (5 / 96) := by
  have hb := Real.cos_bound (x := x) (by rwa [abs_of_nonneg h0])
  rw [abs_of_nonneg h0] at hb
  have := (abs_le.mp hb).2
  linarith

theorem cos_lb_at (x b : ℝ) (h0 : 0 ≤ x) (hb : x ≤ b) (hb1 : b ≤ 1) :
    1 - b ^ 2 / 2 - b ^ 4 * (5 / 96) ≤ Real.cos x := by
  have h := cos_lb x h0 (le_trans hb hb1)
  have hx2 : x ^ 2 ≤ b ^ 2 := pow_le_pow_left₀ h0 hb 2
  have hx4 : x ^ 4 ≤ b ^ 4 := pow_le_pow_left₀ h0 hb 4
  linarith

theorem cos_ub_at (x l b : ℝ) (hl0 : 0 ≤ l) (hlx : l ≤ x) (hb : x ≤ b)
    (hb1 : b ≤ 1) : Real.cos x ≤ 1 - l ^ 2 / 2 + b ^ 4 * (5 / 96) := by
  have h := cos_ub x (le_trans hl0 hlx) (le_trans hb hb1)
  have hx2 : l ^ 2 ≤ x ^ 2 := pow_le_pow_left₀ hl0 hlx 2
  have hx4 : x ^ 4 ≤ b ^ 4 := pow_le_pow_left₀ (le_trans hl0 hlx) hb 4
  linarith

/-- `calculateDistance`, with its `let` chain written out. -/
theorem calculateDistance_eq (lat1 lon1 lat2 lon2 : ℝ) :
    calculateDistance lat1 lon1 lat2 lon2 =
      6371 * (2 * atan2
        (Real.sqrt
          (Real.sin ((lat2 - lat1) * (Real.pi / 180) / 2) *
             Real.sin ((lat2 - lat1) * (Real.pi / 180) / 2) +
           Real.cos (lat1 * (Real.pi / 180)) *
             Real.cos (lat2 * (Real.pi / 180)) *
             (Real.sin ((lon2 - lon1) * (Real.pi / 180) / 2) *
              Real.sin ((lon2 - lon1) * (Real.pi / 180) / 2))))
        (Real.sqrt (1 -
          (Real.sin ((lat2 - lat1) * (Real.pi / 180) / 2) *
             Real.sin ((lat2 - lat1) * (Real.pi / 180) / 2) +
           Real.cos (lat1 * (Real.pi / 180)) *
             Real.cos (lat2 * (Real.pi / 180)) *
             (Real.sin ((lon2 - lon1) * (Real.pi / 180) / 2) *
              Real.sin ((lon2 - lon1) * (Real.pi / 180) / 2)))))) := rfl

theorem sq_lb_aux (x : ℝ) (h1 : (0.968009 : ℝ) ≤ x) :
    (0.937041 : ℝ) ≤ x * x := by nlinarith

theorem sq_ub_aux (x : ℝ) (h0 : (-1 : ℝ) ≤ x) (h1 : x ≤ 1) : x * x ≤ 1 := by
  nlinarith

theorem sq_small_aux (x : ℝ) (h0 : 0 ≤ x) (h1 : x ≤ (0.104808 : ℝ)) :
    x * x ≤ (0.010985 : ℝ) := by nlinarith

set_option maxHeartbeats 1000000 in
/-- The haversine distance from Delhi (28.70, 77.10) to New York
(40.71, −74.01) exceeds 1800 km (the spec estimates ≈ 11760 km; 1800 km
is the bound that decides the 2-hour impossibility instance). -/
theorem delhiNY_distance_gt :
    (1800 : ℝ) <
      calculateDistance (287 / 10) (771 / 10) (4071 / 100) (-7401 / 100) := by
  have hπl : (3.141592 : ℝ) < Real.pi := Real.pi_gt_d6
  have hπu : Real.pi < 3.141593 := Real.pi_lt_d6
  have hπ0 : (0 : ℝ) < Real.pi := by linarith
  rw [calculateDistance_eq]
  set c1 : ℝ := Real.cos (287 / 10 * (Real.pi / 180)) with hc1def
  set c2 : ℝ := Real.cos (4071 / 100 * (Real.pi / 180)) with hc2def
  set sd : ℝ := Real.sin ((4071 / 100 - 287 / 10) * (Real.pi / 180) / 2)
    with hsddef
  set sl : ℝ := Real.sin ((-7401 / 100 - 771 / 10) * (Real.pi / 180) / 2)
    with hsldef
  set a : ℝ := sd * sd + c1 * c2 * (sl * sl) with hadef
  -- angle ranges
  have hr1l : (0.500909 : ℝ) ≤ 287 / 10 * (Real.pi / 180) := by linarith
  have hr1u : (287 : ℝ) / 10 * (Real.pi / 180) ≤ 0.50091 := by linarith
  have hr2l : (0.710523 : ℝ) ≤ 4071 / 100 * (Real.pi / 180) := by linarith
  have hr2u : (4071 : ℝ) / 100 * (Real.pi / 180) ≤ 0.710524 := by linarith
  -- cosine bounds
  have hc1l : (0.871265 : ℝ) ≤ c1 := by
    rw [hc1def]
    have h := cos_lb_at (287 / 10 * (Real.pi / 180)) 0.50091
      (by positivity) hr1u (by norm_num)
    norm_num at h
    linarith
  have hc2l : (0.734303 : ℝ) ≤ c2 := by
    rw [hc2def]
    have h := cos_lb_at (4071 / 100 * (Real.pi / 180)) 0.710524
      (by positivity) hr2u (by norm_num)
    norm_num at h
    linarith
  have hc1u : c1 ≤ (0.877825 : ℝ) := by
    rw [hc1def]
    have h := cos_ub_at (287 / 10 * (Real.pi / 180)) 0.500909 0.50091
      (by norm_num) hr1l hr1u (by norm_num)
    norm_num at h
    linarith
  have hc2u : c2 ≤ (0.760853 : ℝ) := by
    rw [hc2def]
    have h := cos_ub_at (4071 / 100 * (Real.pi / 180)) 0.710523 0.710524
      (by norm_num) hr2l hr2u (by norm_num)
    norm_num at h
    linarith
  -- sin bounds for the half longitude difference
  have hsleq : sl = -Real.sin (15111 * Real.pi / 36000) := by
    rw [hsldef, show ((-7401 / 100 - 771 / 10) * (Real.pi / 180) / 2 : ℝ) =
      -(15111 * Real.pi / 36000) from by ring, Real.sin_neg]
  have hyu : (963 : ℝ) * Real.pi / 12000 ≤ 0.252113 := by linarith
  have hsinL : (0.968009 : ℝ) ≤ Real.sin (15111 * Real.pi / 36000) := by
    have hcos := cos_lb_at (963 * Real.pi / 12000) 0.252113
      (by positivity) hyu (by norm_num)
    have hpi2 : Real.cos (Real.pi / 2 - 15111 * Real.pi / 36000) =
        Real.sin (15111 * Real.pi / 36000) :=
      Real.cos_pi_div_two_sub _
    rw [show (Real.pi / 2 - 15111 * Real.pi / 36000 : ℝ) =
      963 * Real.pi / 12000 from by ring] at hpi2
    norm_num at hcos
    linarith
  have hsl2 : (0.937041 : ℝ) ≤ sl * sl := by
    rw [hsleq]
    have := sq_lb_aux _ hsinL
    nlinarith
  have hsl2u : sl * sl ≤ 1 := by
    rw [hsleq]
    have := sq_ub_aux (Real.sin (15111 * Real.pi / 36000))
      (Real.neg_one_le_sin _) (Real.sin_le_one _)
    nlinarith
  -- bounds for the half latitude difference term
  have hsd0 : 0 ≤ sd := by
    rw [hsddef]
    exact Real.sin_nonneg_of_nonneg_of_le_pi (by positivity) (by linarith)
  have hsdu : sd ≤ (0.104808 : ℝ) := by
    rw [hsddef]
    have hlt := Real.sin_lt
      (show (0:ℝ) < (4071 / 100 - 287 / 10) * (Real.pi / 180) / 2 from
        by positivity)
    linarith
  have hsdsq : sd * sd ≤ (0.010985 : ℝ) := sq_small_aux sd hsd0 hsdu
  -- a is strictly between 1/2 and 1
  have halo : (0.59 : ℝ) < a := by
    rw [hadef]
    have hp1 : (0.871265 : ℝ) * 0.734303 ≤ c1 * c2 :=
      mul_le_mul hc1l hc2l (by norm_num) (by linarith)
    have hp2 : ((0.871265 : ℝ) * 0.734303) * 0.937041 ≤
        (c1 * c2) * (sl * sl) :=
      mul_le_mul hp1 hsl2 (by norm_num) (by linarith)
    have hsq := mul_self_nonneg sd
    linarith
  have hahi : a < 1 := by
    rw [hadef]
    have hsl0 : (0 : ℝ) ≤ sl * sl := mul_self_nonneg sl
    have hcc : c1 * c2 ≤ (0.877825 : ℝ) * 0.760853 :=
      mul_le_mul hc1u hc2u (by linarith) (by norm_num)
    have hcc0 : (0 : ℝ) ≤ c1 * c2 := by
      have := mul_le_mul hc1l hc2l (by norm_num) (by linarith :
        (0:ℝ) ≤ c1)
      linarith [this]
    have hp : (c1 * c2) * (sl * sl) ≤ ((0.877825 : ℝ) * 0.760853) * 1 :=
      mul_le_mul hcc hsl2u hsl0 (by norm_num)
    linarith
  -- the atan2 branch and the arctan bound
  have h1a : 0 < 1 - a := by linarith
  have hx : 0 < Real.sqrt (1 - a) := Real.sqrt_pos.mpr h1a
  have hlt : Real.sqrt (1 - a) < Real.sqrt a :=
    Real.sqrt_lt_sqrt (by linarith) (by linarith)
  have hratio : 1 < Real.sqrt a / Real.sqrt (1 - a) :=
    (one_lt_div hx).mpr hlt
  have harctan : Real.pi / 4 <
      Real.arctan (Real.sqrt a / Real.sqrt (1 - a)) := by
    have := Real.arctan_strictMono hratio
    rwa [Real.arctan_one] at this
  have hatan2 : atan2 (Real.sqrt a) (Real.sqrt (1 - a)) =
      Real.arctan (Real.sqrt a / Real.sqrt (1 - a)) := by
    unfold atan2
    rw [if_pos hx]
  rw [hatan2]
  nlinarith

def delhiLast : StoredLocation :=
  { country := "IN", city := "New Delhi", lat := 287/10, lon := 771/10,
    timestamp := 0 }

def nycGeo : GeoLoc :=
  { country := "US", city := "New York", lat := 4071/100, lon := -7401/100 }

/-- C3: with a stored last location and a resolvable current IP,
`isImpossible` holds iff the elapsed time is below the minimum travel
time (distance / 900 km/h in ms) and the distance exceeds 500 km; the
risk score follows the first matching tier 95 / 75 / 40 / 20 / 0; and
the concrete Delhi → New York instance with 2 h elapsed is impossible
with risk 95. -/
theorem c3_geo_impossibility_tiers :
    (∀ (geo : GeoLoc) (last : StoredLocation) (now : Nat),
      (((checkGeoImpossibility (some geo) (some last) now).1.isImpossible
          = true) ↔
        ((((now : ℤ) - (last.timestamp : ℤ) : ℤ) : ℝ) <
            getMinTravelTime (calculateDistance (last.lat : ℝ) (last.lon : ℝ)
              (geo.lat : ℝ) (geo.lon : ℝ)) ∧
          500 < calculateDistance (last.lat : ℝ) (last.lon : ℝ)
            (geo.lat : ℝ) (geo.lon : ℝ))) ∧
      ((checkGeoImpossibility (some geo) (some last) now).1.isImpossible
          = true →
        (checkGeoImpossibility (some geo) (some last) now).1.riskScore = 95) ∧
      ((checkGeoImpossibility (some geo) (some last) now).1.isImpossible
          = false →
        3000 < calculateDistance (last.lat : ℝ) (last.lon : ℝ)
          (geo.lat : ℝ) (geo.lon : ℝ) →
        ((now : ℤ) - (last.timestamp : ℤ) : ℤ) < 3600000 →
        (checkGeoImpossibility (some geo) (some last) now).1.riskScore = 75) ∧
      ((checkGeoImpossibility (some geo) (some last) now).1.isImpossible
          = false →
        ¬(3000 < calculateDistance (last.lat : ℝ) (last.lon : ℝ)
            (geo.lat : ℝ) (geo.lon : ℝ) ∧
          ((now : ℤ) - (last.timestamp : ℤ) : ℤ) < 3600000) →
        last.country ≠ geo.country →
        (checkGeoImpossibility (some geo) (some last) now).1.riskScore = 40) ∧
      ((checkGeoImpossibility (some geo) (some last) now).1.isImpossible
          = false →
        ¬(3000 < calculateDistance (last.lat : ℝ) (last.lon : ℝ)
            (geo.lat : ℝ) (geo.lon : ℝ) ∧
          ((now : ℤ) - (last.timestamp : ℤ) : ℤ) < 3600000) →
        last.country = geo.country →
        100 < calculateDistance (last.lat : ℝ) (last.lon : ℝ)
          (geo.lat : ℝ) (geo.lon : ℝ) →
        (checkGeoImpossibility (some geo) (some last) now).1.riskScore = 20) ∧
      ((checkGeoImpossibility (some geo) (some last) now).1.isImpossible
          = false →
        ¬(3000 < calculateDistance (last.lat : ℝ) (last.lon : ℝ)
            (geo.lat : ℝ) (geo.lon : ℝ) ∧
          ((now : ℤ) - (last.timestamp : ℤ) : ℤ) < 3600000) →
        last.country = geo.country →
        ¬(100 < calculateDistance (last.lat : ℝ) (last.lon : ℝ)
            (geo.lat : ℝ) (geo.lon : ℝ)) →
        (checkGeoImpossibility (some geo) (some last) now).1.riskScore
          = 0)) ∧
    ((checkGeoImpossibility (some nycGeo) (some delhiLast)
        7200000).1.isImpossible = true ∧
     (checkGeoImpossibility (some nycGeo) (some delhiLast)
        7200000).1.riskScore = 95) := by
  constructor
  · intro geo last now
    simp only [checkGeoImpossibility]
    by_cases hP : ((((now : ℤ) - (last.timestamp : ℤ) : ℤ) : ℝ) <
        getMinTravelTime (calculateDistance (last.lat : ℝ) (last.lon : ℝ)
          (geo.lat : ℝ) (geo.lon : ℝ)) ∧
        500 < calculateDistance (last.lat : ℝ) (last.lon : ℝ)
          (geo.lat : ℝ) (geo.lon : ℝ))
    · simp only [if_pos hP]
      exact ⟨⟨fun _ => hP, fun _ => by simp⟩, fun _ => by simp,
        fun h => by simp at h, fun h => by simp at h,
        fun h => by simp at h, fun h => by simp at h⟩
    · simp only [if_neg hP]
      refine ⟨⟨fun h => by simp at h, fun h => absurd h hP⟩,
        fun h => by simp at h, ?_, ?_, ?_, ?_⟩
      · intro _ h3 h4
        simp only [Bool.false_eq_true, if_false, if_pos (And.intro h3 h4)]
      · intro _ hnQ hC
        simp only [Bool.false_eq_true, if_false, if_neg hnQ, if_pos hC]
      · intro _ hnQ hCeq hD
        simp only [Bool.false_eq_true, if_false, if_neg hnQ,
          if_neg (not_not_intro hCeq), if_pos hD]
      · intro _ hnQ hCeq hnD
        simp only [Bool.false_eq_true, if_false, if_neg hnQ,
          if_neg (not_not_intro hCeq), if_neg hnD]
  · have hdist : (1800 : ℝ) < calculateDistance ((287/10 : ℚ) : ℝ)
        ((771/10 : ℚ) : ℝ) ((4071/100 : ℚ) : ℝ) ((-7401/100 : ℚ) : ℝ) := by
      rw [show ((287/10 : ℚ) : ℝ) = (287/10 : ℝ) by norm_num,
        show ((771/10 : ℚ) : ℝ) = (771/10 : ℝ) by norm_num,
        show ((4071/100 : ℚ) : ℝ) = (4071/100 : ℝ) by norm_num,
        show ((-7401/100 : ℚ) : ℝ) = (-7401/100 : ℝ) by norm_num]
      exact delhiNY_distance_gt
    simp only [checkGeoImpossibility, delhiLast, nycGeo]
    have hlt : ((((7200000 : Nat) : ℤ) - ((0 : Nat) : ℤ) : ℤ) : ℝ) <
        getMinTravelTime (calculateDistance ((287/10 : ℚ) : ℝ)
          ((771/10 : ℚ) : ℝ) ((4071/100 : ℚ) : ℝ) ((-7401/100 : ℚ) : ℝ)) := by
      unfold getMinTravelTime
      push_cast
      linarith
    have h500 : (500 : ℝ) < calculateDistance ((287/10 : ℚ) : ℝ)
        ((771/10 : ℚ) : ℝ) ((4071/100 : ℚ) : ℝ) ((-7401/100 : ℚ) : ℝ) := by
      linarith
    rw [if_pos (And.intro hlt h500)]
    exact ⟨rfl, by simp⟩

/-- C3 witness: the risk-95 clause applied at the Delhi → New York
instance, with its impossibility hypothesis discharged by the concrete
clause of the theorem. -/
theorem c3_witness :
    (checkGeoImpossibility (some nycGeo) (some delhiLast)
      7200000).1.riskScore = 95 :=
  (c3_geo_impossibility_tiers.1 nycGeo delhiLast 7200000).2.1
    c3_geo_impossibility_tiers.2.1

end OTT
